import Mathlib

set_option maxHeartbeats 1000000

set_option allowUnsafeReducibility true

attribute [semireducible] Rat.add Rat.sub Rat.mul Rat.inv

namespace AEBridge

/-! ### JSON value model and config defaulting

Shallow embedding of the JavaScript value handling used by the two scripts.
`AEBridge_Startup.jsx` lines 162-178 and `AEBridge_Render.jsx` lines 109-126
read top-level config fields with the pattern `config.field || default`, which
substitutes the default whenever the field is absent or holds a JS-falsy value.
-/

inductive JVal where
  | null : JVal
  | jbool : Bool → JVal
  | jnum : ℚ → JVal
  | jstr : String → JVal
  | jnan : JVal
  deriving DecidableEq

/-- JS truthiness: null, false, 0, the empty string and NaN are falsy. -/
def truthy : JVal → Bool
  | JVal.null => false
  | JVal.jbool b => b
  | JVal.jnum q => decide (q ≠ 0)
  | JVal.jstr s => decide (s ≠ "")
  | JVal.jnan => false

/-- The JS expression `x || d` for a possibly-absent field `x`. -/
def jsOr (v : Option JVal) (d : JVal) : JVal :=
  match v with
  | some x => if truthy x then x else d
  | none => d

/-- Truthiness of a possibly-absent field (absent = undefined = falsy). -/
def optTruthy : Option JVal → Bool
  | some v => truthy v
  | none => false

def jstrOf : JVal → String
  | JVal.jstr s => s
  | _ => ""

def strOf : Option JVal → String
  | some v => jstrOf v
  | none => ""

/-- JS `Number(v)` restricted to the values this script can feed it.  Numeric
string parsing is not modeled (configs carry quality as a JSON number); a
non-numeric nonempty string maps to NaN. -/
def jsNumber : JVal → JVal
  | JVal.jnum q => JVal.jnum q
  | JVal.jbool b => JVal.jnum (if b then 1 else 0)
  | JVal.null => JVal.jnum 0
  | JVal.jnan => JVal.jnan
  | JVal.jstr s => if s = "" then JVal.jnum 0 else JVal.jnan

/-- Raw top-level config of the startup script (AEBridge_Startup.jsx 162-178).
Each scalar field may be absent (`none`) or present with any JSON value. -/
structure RawStartup where
  frame_rate : Option JVal
  global_first : Option JVal
  global_last : Option JVal
  comp_name : Option JVal
  width : Option JVal
  height : Option JVal
  project_path : Option JVal
  output_path : Option JVal
  should_render : Option JVal
  nuke_colorspace : Option JVal
  nuke_working_space : Option JVal
  nuke_output_transform : Option JVal
  aces_compliant : Option JVal
  deriving DecidableEq

/-- Values the startup script actually computes from the raw config
(AEBridge_Startup.jsx 162-178). `PROJECT_PATH` is read without a default. -/
structure StartupVals where
  FRAME_RATE : JVal
  GLOBAL_FIRST : JVal
  GLOBAL_LAST : JVal
  COMP_NAME : JVal
  COMP_WIDTH : JVal
  COMP_HEIGHT : JVal
  PROJECT_PATH : Option JVal
  OUTPUT_PATH : JVal
  SHOULD_RENDER : JVal
  NUKE_COLORSPACE : JVal
  NUKE_WORKING_SPACE : JVal
  NUKE_OUTPUT_TRANSFORM : JVal
  ACES_COMPLIANT : JVal
  deriving DecidableEq

def parseStartup (c : RawStartup) : StartupVals :=
  { FRAME_RATE := jsOr c.frame_rate (JVal.jnum 24)
    GLOBAL_FIRST := jsOr c.global_first (JVal.jnum 1)
    GLOBAL_LAST := jsOr c.global_last (JVal.jnum 100)
    COMP_NAME := jsOr c.comp_name (JVal.jstr "AEBridge")
    COMP_WIDTH := jsOr c.width (JVal.jnum 1920)
    COMP_HEIGHT := jsOr c.height (JVal.jnum 1080)
    PROJECT_PATH := c.project_path
    OUTPUT_PATH := jsOr c.output_path (JVal.jstr "")
    SHOULD_RENDER := jsOr c.should_render (JVal.jbool false)
    NUKE_COLORSPACE := jsOr c.nuke_colorspace (JVal.jstr "scene_linear")
    NUKE_WORKING_SPACE := jsOr c.nuke_working_space (JVal.jstr "linear")
    NUKE_OUTPUT_TRANSFORM := jsOr c.nuke_output_transform (JVal.jstr "")
    ACES_COMPLIANT := jsOr c.aces_compliant (JVal.jbool false) }

/-- Raw `output_settings` object of the render-only config (AEBridge_Render.jsx
116-122). -/
structure RawOutput where
  template_name : Option JVal
  channels : Option JVal
  depth : Option JVal
  color : Option JVal
  quality : Option JVal
  premultiplied : Option JVal
  deriving DecidableEq

def emptyRawOutput : RawOutput := ⟨none, none, none, none, none, none⟩

/-- Raw top-level render-only config (AEBridge_Render.jsx 109-122). -/
structure RawRender where
  project_path : Option JVal
  comp_name : Option JVal
  frame_rate : Option JVal
  global_first : Option JVal
  global_last : Option JVal
  output_path : Option JVal
  output_settings : Option RawOutput
  deriving DecidableEq

/-- Values the render script computes from the raw config (AEBridge_Render.jsx
109-122). `project_path` and `output_path` are read without defaults. -/
structure RenderVals where
  projectPath : Option JVal
  compName : JVal
  frameRate : JVal
  globalFirst : JVal
  globalLast : JVal
  outputPath : Option JVal
  templateName : JVal
  desiredChannels : JVal
  desiredDepth : JVal
  desiredColor : JVal
  desiredQuality : JVal
  desiredPremult : Bool
  deriving DecidableEq

def parseRender (c : RawRender) : RenderVals :=
  let os := match c.output_settings with
    | some o => o
    | none => emptyRawOutput
  { projectPath := c.project_path
    compName := jsOr c.comp_name (JVal.jstr "AEBridge")
    frameRate := jsOr c.frame_rate (JVal.jnum 24)
    globalFirst := jsOr c.global_first (JVal.jnum 0)
    globalLast := jsOr c.global_last (JVal.jnum 0)
    outputPath := c.output_path
    templateName := jsOr os.template_name (JVal.jstr "")
    desiredChannels := jsOr os.channels (JVal.jstr "RGB + Alpha")
    desiredDepth := jsOr os.depth (JVal.jstr "16 Bits/Channel")
    desiredColor := jsOr os.color (JVal.jstr "Straight (Unmatted)")
    desiredQuality := jsNumber (jsOr os.quality (JVal.jnum 100))
    desiredPremult := optTruthy os.premultiplied }

/-! ### Composition start-frame mechanisms

AEBridge_Startup.jsx 282-289 (and identically AEBridge_Render.jsx 165-174) set
`comp.displayStartFrame = GLOBAL_FIRST` and on failure fall back to
`comp.displayStartTime = (GLOBAL_FIRST - 1) / FRAME_RATE`.  The host relates
the two properties by `displayStartFrame = displayStartTime * frameRate`. -/

def primaryDisplayStartFrame (globalFirst : ℤ) : ℤ := globalFirst

def fallbackDisplayStartTime (globalFirst : ℤ) (frameRate : ℚ) : ℚ :=
  ((globalFirst : ℚ) - 1) / frameRate

/-- Host relation: the start frame denoted by a display start time. -/
def frameOfDisplayStartTime (t fr : ℚ) : ℚ := t * fr

/-! ### Output module configuration (AEBridge_Render.jsx 226-314)

The output module is modeled by the ordered trace of writes the script issues
to it.  Per-field failures that the script swallows in try/catch are modeled by
the host predicate `accepts`, which decides whether a given `setSetting`
attempt succeeds; the template list of the host is `templates`. -/

inductive REvent where
  | applyTemplate : String → REvent
  | setFile : String → REvent
  | setSetting : String → String → JVal → REvent
  | includeXMP : REvent
  | warnAlert : String → REvent
  deriving DecidableEq

structure OMHost where
  templates : List String
  accepts : String → String → Bool
  xmpOk : Bool

/-- AEBridge_Render.jsx 226-239: scan the host templates in order, apply the
first one that appears in `names`, and return it. -/
def applyTemplateByNames (templates : List String) (names : List String) : Option String :=
  templates.find? (fun t => names.contains t)

/-- A guarded `om.setSetting(sec, key, v)` call: emits the write only if the
host accepts it (the script swallows the failure otherwise). -/
def settingWrite (h : OMHost) (sec key : String) (v : JVal) : List REvent :=
  if h.accepts sec key then [REvent.setSetting sec key v] else []

/-- AEBridge_Render.jsx 270-277 and 292-298: set the starting frame number,
trying two alternate setting names in order; both failures are swallowed. -/
def startNumberingWrites (h : OMHost) (globalFirst : JVal) : List REvent :=
  if h.accepts "Output Module Settings" "Start Numbering" then
    [REvent.setSetting "Output Module Settings" "Start Numbering" globalFirst]
  else if h.accepts "Output Module Settings" "Starting #" then
    [REvent.setSetting "Output Module Settings" "Starting #" globalFirst]
  else []

/-- AEBridge_Render.jsx 241-249 `configureWithTemplate`: apply the named
template; if absent, alert a warning and report failure. On success set the
destination file and report success. -/
def configureWithTemplate (h : OMHost) (outPath name : String) : Bool × List REvent :=
  match applyTemplateByNames h.templates [name] with
  | none => (false, [REvent.warnAlert ("WARNING: Output template not found: " ++ name)])
  | some t => (true, [REvent.applyTemplate t, REvent.setFile outPath])

def defaultTemplateNames : List String :=
  ["_HIDDEN X-Factor 8", "_HIDDEN X-Factor 8 Premul", "PNG Sequence",
   "Lossless with Alpha", "Lossless"]

/-- AEBridge_Render.jsx 251-283 `configurePNGDefault`: try the fixed list of
default templates, else force the PNG format; then best-effort channel, depth,
color and quality settings, then numbering start, then the destination file
last. -/
def configurePNGDefault (h : OMHost) (v : RenderVals) (outPath : String) : Bool × List REvent :=
  let step1 : Option (List REvent) :=
    match applyTemplateByNames h.templates defaultTemplateNames with
    | some t => some [REvent.applyTemplate t]
    | none =>
      if h.accepts "Output Module Settings" "Format" then
        some [REvent.setSetting "Output Module Settings" "Format" (JVal.jstr "PNG Sequence")]
      else none
  match step1 with
  | none => (false, [REvent.warnAlert "WARNING: Cannot set PNG output format."])
  | some tr1 =>
    let tr2 := settingWrite h "Output Module Settings" "Channels" v.desiredChannels
      ++ settingWrite h "Output Module Settings" "Depth" v.desiredDepth
      ++ settingWrite h "Output Module Settings" "Color" v.desiredColor
      ++ settingWrite h "PNG Options" "Quality" v.desiredQuality
      ++ settingWrite h "Format Options" "Quality" v.desiredQuality
    (true, tr1 ++ tr2 ++ startNumberingWrites h v.globalFirst ++ [REvent.setFile outPath])

/-- AEBridge_Render.jsx 285-303 `configureOutputModule`: template path when a
nonempty template name is configured, fallback path otherwise.  On the template
path, numbering start is set only after success, and the function returns
whatever `configureWithTemplate` reported. -/
def configureOutputModule (h : OMHost) (v : RenderVals) (tn : String) (outPath : String) :
    Bool × List REvent :=
  if tn ≠ "" then
    let r := configureWithTemplate h outPath tn
    if r.1 then (true, r.2 ++ startNumberingWrites h v.globalFirst) else r
  else configurePNGDefault h v outPath

/-- The template name string the render script branches on: a non-string value
has no `.length` property, so `templateName && templateName.length > 0` is not
true and the script takes the fallback path. -/
def templateNameStr (v : RenderVals) : String :=
  match v.templateName with
  | JVal.jstr s => s
  | _ => ""

/-- AEBridge_Render.jsx 306-314: the full output-module write sequence of a
render invocation — configuration, then `includeSourceXMP` (guarded), then the
final unconditional destination-file assignment. -/
def renderOMRun (h : OMHost) (v : RenderVals) (outPath : String) : Bool × List REvent :=
  let r := configureOutputModule h v (templateNameStr v) outPath
  if r.1 then
    (true, r.2 ++ (if h.xmpOk then [REvent.includeXMP] else []) ++ [REvent.setFile outPath])
  else r

/-! ### Render-only invocation prologue (AEBridge_Render.jsx 109-319)

Coarse model of the render script after config parsing: the missing-field
check precedes every write to the project graph.  Render-queue manipulation is
summarized as a single write event; the directory-creation failure path is not
modeled. -/

inductive RenderFatal where
  | missingRequiredFields : RenderFatal
  | projectFileNotFound : RenderFatal
  | compNotFound : RenderFatal
  | configFailed : RenderFatal
  deriving DecidableEq

inductive RWrite where
  | setCompStartFrame : JVal → RWrite
  | setCompFrameRate : JVal → RWrite
  | setCompDuration : RWrite
  | rqItemAdded : RWrite
  | om : REvent → RWrite
  deriving DecidableEq

/-- AEBridge_Render.jsx: fatal checks and graph writes, in source order.  The
first component is the fatal error that stopped the run (if any), the second
the graph writes issued before stopping. -/
def renderRun (c : RawRender) (fs comps : List String) (h : OMHost) :
    Option RenderFatal × List RWrite :=
  let v := parseRender c
  if !(optTruthy c.project_path) || !(optTruthy c.output_path) then
    (some RenderFatal.missingRequiredFields, [])
  else if !(fs.contains (strOf c.project_path)) then
    (some RenderFatal.projectFileNotFound, [])
  else if !(comps.contains (jstrOf v.compName)) then
    (some RenderFatal.compNotFound, [])
  else
    let w1 : List RWrite :=
      if v.globalFirst ≠ JVal.jnum 0 ∧ v.globalFirst ≠ JVal.jnum 1 then
        [RWrite.setCompStartFrame v.globalFirst]
      else []
    let w2 := w1 ++ [RWrite.setCompFrameRate v.frameRate, RWrite.setCompDuration,
      RWrite.rqItemAdded]
    let r := renderOMRun h v (strOf c.output_path)
    if r.1 then (none, w2 ++ r.2.map RWrite.om)
    else (some RenderFatal.configFailed, w2 ++ r.2.map RWrite.om)

/-! ### Project graph model (AEBridge_Startup.jsx 180-674)

The After Effects project is modeled as a list of project items (compositions,
footage items and solid footage items) plus a list of layers; identities of
host objects are modeled by numeric ids drawn from a fresh-id counter.  New
project items are appended to the item list; a newly added layer becomes the
topmost layer of its composition (layer lists are ordered topmost first). -/

inductive ItemKind where
  | comp : ItemKind
  | footage : ItemKind
  | solid : ItemKind
  deriving DecidableEq

structure PItem where
  id : Nat
  kind : ItemKind
  name : String
  filePath : Option String
  duration : ℚ
  frameRate : ℚ
  width : Nat
  height : Nat
  displayStartFrame : ℤ
  workAreaStart : ℚ
  workAreaDuration : ℚ
  conformFrameRate : ℚ
  alphaStraight : Bool
  deriving DecidableEq

structure Layer where
  id : Nat
  compId : Nat
  name : String
  sourceId : Nat
  startTime : ℚ
  inPoint : ℚ
  outPoint : ℚ
  timeRemapEnabled : Bool
  remapKeys : List (ℚ × ℚ)
  deriving DecidableEq

structure Project where
  nextId : Nat
  items : List PItem
  layers : List Layer
  deriving DecidableEq

def emptyProject : Project := ⟨0, [], []⟩

/-- Host environment of the startup script: the file system, the natural
duration the host reads off a sequence, the name the host gives an imported
item, and whether the four fallible host primitives succeed. -/
structure Host where
  fs : List String
  mediaDuration : String → ℚ
  importName : String → String
  reloadOk : Bool
  replaceSeqOk : Bool
  replaceOk : Bool
  importOk : Bool

structure ShotItem where
  name : String
  first_file : Option String
  path : Option String
  first : ℤ
  last : ℤ
  deriving DecidableEq

/-- The startup config after defaulting (AEBridge_Startup.jsx 162-169). -/
structure SConfig where
  frameRate : ℚ
  globalFirst : ℤ
  globalLast : ℤ
  compName : String
  width : Nat
  height : Nat
  items : List ShotItem
  deriving DecidableEq

/-- `DURATION = (GLOBAL_LAST - GLOBAL_FIRST + 1) / FRAME_RATE` (line 168). -/
def SConfig.duration (c : SConfig) : ℚ :=
  ((c.globalLast - c.globalFirst + 1 : ℤ) : ℚ) / c.frameRate

def aeBridgeTag : String := "[AEBridge]_"

def sourceTag : String := "[AEBridge]_Source_"

def missingSuffix : String := " (Missing)"

def isFootageItem (it : PItem) : Bool := it.kind ≠ ItemKind.comp

def findItem (p : Project) (iid : Nat) : Option PItem :=
  p.items.find? (fun it => it.id == iid)

def updateItem (p : Project) (iid : Nat) (f : PItem → PItem) : Project :=
  { p with items := p.items.map (fun it => if it.id == iid then f it else it) }

def getLayer (p : Project) (lid : Nat) : Option Layer :=
  p.layers.find? (fun l => l.id == lid)

def updateLayer (p : Project) (lid : Nat) (f : Layer → Layer) : Project :=
  { p with layers := p.layers.map (fun l => if l.id == lid then f l else l) }

/-- The layers of one composition, topmost first (AE `comp.layers`). -/
def compLayers (p : Project) (cid : Nat) : List Layer :=
  p.layers.filter (fun l => l.compId == cid)

/-- `lay.source && lay.source instanceof FootageItem`. -/
def layerSourceIsFootage (p : Project) (l : Layer) : Bool :=
  match findItem p l.sourceId with
  | some it => isFootageItem it
  | none => false

/-- AEBridge_Startup.jsx 304-312 `findCompByName`. -/
def findCompByName (p : Project) (name : String) : Option PItem :=
  p.items.find? (fun it => it.kind == ItemKind.comp && it.name == name)

/-- AEBridge_Startup.jsx 251-302 `syncCompSettings`: frame rate, duration and
resolution each skipped when already matching; the display start frame and the
work area are written unconditionally.  Every write is modeled on its success
path (each is independently guarded in the source). -/
def syncCompSettings (cfg : SConfig) (p : Project) (cid : Nat) : Project :=
  updateItem p cid (fun c0 =>
    let c1 := if |c0.frameRate - cfg.frameRate| > 1/100 then
      { c0 with frameRate := cfg.frameRate } else c0
    let c2 := if |c1.duration - cfg.duration| > 1/100 then
      { c1 with duration := cfg.duration } else c1
    let c3 := if c2.width ≠ cfg.width ∨ c2.height ≠ cfg.height then
      { c2 with width := cfg.width, height := cfg.height } else c2
    let c4 := { c3 with displayStartFrame := cfg.globalFirst }
    { c4 with workAreaStart := 0, workAreaDuration := cfg.duration })

/-- AEBridge_Startup.jsx 314-325 `ensureComp`: find by exact name, otherwise
create with the desired geometry, then apply `syncCompSettings` either way.
Returns the project and the id of the composition. -/
def ensureComp (cfg : SConfig) (p : Project) (name : String) : Project × Nat :=
  match findCompByName p name with
  | some c => (syncCompSettings cfg p c.id, c.id)
  | none =>
    let cid := p.nextId
    let newComp : PItem :=
      { id := cid, kind := ItemKind.comp, name := name, filePath := none
        duration := cfg.duration, frameRate := cfg.frameRate
        width := cfg.width, height := cfg.height, displayStartFrame := 0
        workAreaStart := 0, workAreaDuration := cfg.duration
        conformFrameRate := 0, alphaStraight := false }
    let p1 : Project := { p with nextId := p.nextId + 1, items := p.items ++ [newComp] }
    (syncCompSettings cfg p1 cid, cid)

/-- AEBridge_Startup.jsx 327-341 `findFootageByFirstFile`: first footage item
whose backing file resolves to the same canonical path. -/
def findFootageByFirstFile (p : Project) (firstFile : String) : Option PItem :=
  p.items.find? (fun it => isFootageItem it && it.filePath == some firstFile)

def seqSuffixExts : List String := ["exr", "dpx", "tif", "tiff", "jpg", "jpeg", "png"]

def isSeqSuffixChar (c : Char) : Bool :=
  c = '_' || c = '.' || c = '[' || c = ']' || c = '-' || c.isDigit

/-- The frame-range suffix pattern of AEBridge_Startup.jsx line 367: one or
more characters of the class underscore, dot, brackets, digits, dash, then a
dot and a known image extension, case-insensitively. -/
def seqSuffixMatches (s : String) : Bool :=
  seqSuffixExts.any (fun ext =>
    let tail := "." ++ ext
    s.toLower.endsWith tail && decide (s.length > tail.length) &&
      (s.take (s.length - tail.length)).toList.all isSeqSuffixChar)

/-- AEBridge_Startup.jsx 349-375 `findFootageByName`: exact name match first,
then a prefix match whose remainder looks like an auto-added frame-range
suffix. -/
def findFootageByName (p : Project) (name : String) : Option PItem :=
  if name = "" then none
  else
    match p.items.find? (fun it => isFootageItem it && it.name == name) with
    | some it => some it
    | none =>
      p.items.find? (fun it =>
        isFootageItem it && it.name.startsWith name &&
          seqSuffixMatches (it.name.drop name.length))

/-- A guarded `footage.mainSource.reload()`: refreshes the natural duration
from the backing file; a host failure is swallowed by the caller. -/
def reloadFootage (h : Host) (p : Project) (iid : Nat) : Project :=
  if h.reloadOk then
    updateItem p iid (fun it =>
      match it.filePath with
      | some f => { it with duration := h.mediaDuration f }
      | none => it)
  else p

/-- AEBridge_Startup.jsx 440-443: fresh sequence import.  `proj.importFile` is
NOT wrapped in try/catch in the source, so a host failure here propagates as
an exception (modeled by `Except.error`). -/
def importFresh (h : Host) (p : Project) (path : String) : Except Unit (Project × Option Nat) :=
  if h.importOk then
    let iid := p.nextId
    let newItem : PItem :=
      { id := iid, kind := ItemKind.footage, name := h.importName path
        filePath := some path, duration := h.mediaDuration path
        frameRate := 0, width := 0, height := 0, displayStartFrame := 0
        workAreaStart := 0, workAreaDuration := 0, conformFrameRate := 0
        alphaStraight := false }
    Except.ok ({ p with nextId := p.nextId + 1, items := p.items ++ [newItem] }, some iid)
  else Except.error ()

/-- AEBridge_Startup.jsx 386-444 `importOrUpdateSequence`: exact-path match
(reload in place), then name match with path drift (source swap, with a
guarded fallback chain), then fresh sequence import.  A missing file yields
null.  `replaceWithSequence` and `replace` both set the new backing path and
cause the host to re-read the media; when both fail the item is merely
reloaded and returned as is. -/
def importOrUpdateSequence (h : Host) (p : Project) (firstFile : Option String)
    (layerName : String) : Except Unit (Project × Option Nat) :=
  match firstFile with
  | none => Except.ok (p, none)
  | some ff =>
    if ff = "" then Except.ok (p, none)
    else if !(h.fs.contains ff) then Except.ok (p, none)
    else
      match findFootageByFirstFile p ff with
      | some ex => Except.ok (reloadFootage h p ex.id, some ex.id)
      | none =>
        match findFootageByName p layerName with
        | some snf =>
          match snf.filePath with
          | some oldFile =>
            if oldFile ≠ ff then
              if h.replaceSeqOk then
                let p1 := updateItem p snf.id (fun it =>
                  { it with filePath := some ff, duration := h.mediaDuration ff })
                Except.ok (reloadFootage h p1 snf.id, some snf.id)
              else if h.replaceOk then
                let p1 := updateItem p snf.id (fun it =>
                  { it with filePath := some ff, duration := h.mediaDuration ff })
                Except.ok (reloadFootage h p1 snf.id, some snf.id)
              else
                Except.ok (reloadFootage h p snf.id, some snf.id)
            else
              Except.ok (reloadFootage h p snf.id, some snf.id)
          | none => importFresh h p ff
        | none => importFresh h p ff

/-- `layerStartTime = (startFrame - GLOBAL_FIRST) / FRAME_RATE` (line 503-504). -/
def layerStartTimeQ (cfg : SConfig) (startFrame : ℤ) : ℚ :=
  ((startFrame - cfg.globalFirst : ℤ) : ℚ) / cfg.frameRate

/-- `layerDuration = (endFrame - startFrame + 1) / FRAME_RATE` (line 505). -/
def layerDurationQ (cfg : SConfig) (startFrame endFrame : ℤ) : ℚ :=
  ((endFrame - startFrame + 1 : ℤ) : ℚ) / cfg.frameRate

/-- The source-layer search predicate of AEBridge_Startup.jsx 448-454: name
matches and the layer source is a footage item. -/
def srcLayerPred (p : Project) (layerName : String) (l : Layer) : Bool :=
  l.name == layerName && layerSourceIsFootage p l

/-- AEBridge_Startup.jsx 446-470: find the target source layer; when absent
add a layer bound to the footage (null footage returns null); when present but
bound to different media, swap the source in place (`replaceSource` preserves
every other layer property; its remove-and-re-add fallback is not modeled
separately since it converges to the same bound layer). -/
def eslAcquire (p0 : Project) (precompId : Nat) (footage : Option Nat)
    (layerName : String) : Option (Project × Layer) :=
  match (compLayers p0 precompId).find? (srcLayerPred p0 layerName) with
  | none =>
    match footage with
    | none => none
    | some fid =>
      let tid := p0.nextId
      let srcItem := findItem p0 fid
      let newLayer : Layer :=
        { id := tid, compId := precompId
          name := (srcItem.map PItem.name).getD ""
          sourceId := fid, startTime := 0, inPoint := 0
          outPoint := ((srcItem.map PItem.duration).getD 0)
          timeRemapEnabled := false, remapKeys := [] }
      some ({ p0 with nextId := p0.nextId + 1, layers := newLayer :: p0.layers }, newLayer)
  | some t =>
    match footage with
    | some fid =>
      if t.sourceId == fid then some (p0, t)
      else some (updateLayer p0 t.id (fun l => { l with sourceId := fid }),
        { t with sourceId := fid })
    | none => some (p0, t)

/-- AEBridge_Startup.jsx 473: rename the target layer to the reserved name. -/
def eslRename (p1 : Project) (tid : Nat) (layerName : String) : Project :=
  updateLayer p1 tid (fun l => { l with name := layerName })

/-- AEBridge_Startup.jsx 479-499: conform the footage frame rate (non-still
sources only; solids are stills and are skipped). -/
def eslConform (cfg : SConfig) (p2 : Project) (fid : Nat) : Project :=
  match findItem p2 fid with
  | some itm =>
    if itm.kind == ItemKind.footage then
      updateItem p2 fid (fun x => { x with conformFrameRate := cfg.frameRate })
    else p2
  | none => p2

/-- AEBridge_Startup.jsx 502-512: write the layer timing unconditionally. -/
def eslTiming (cfg : SConfig) (p3 : Project) (tid : Nat) (startFrame endFrame : ℤ) : Project :=
  updateLayer p3 tid (fun l =>
    { l with startTime := layerStartTimeQ cfg startFrame
             inPoint := layerStartTimeQ cfg startFrame
             outPoint := layerStartTimeQ cfg startFrame
               + layerDurationQ cfg startFrame endFrame })

/-- `targetLayer.canSetTimeRemapEnabled`: true for non-still footage-backed
layers (solids are stills). -/
def eslCanSet (p4 : Project) (fid : Nat) : Bool :=
  match findItem p4 fid with
  | some itm => itm.kind == ItemKind.footage
  | none => false

/-- `footage.duration`, the natural duration of the resolved media. -/
def eslActualDur (p4 : Project) (fid : Nat) : ℚ :=
  ((findItem p4 fid).map PItem.duration).getD 0

/-- AEBridge_Startup.jsx 514-540: only when remapping can be enabled and is
not already enabled — rebuild the remap keyframes if the natural footage
duration differs from the layer duration by more than 0.01s. -/
def eslRemap (cfg : SConfig) (p4 : Project) (t : Layer) (fid : Nat)
    (startFrame endFrame : ℤ) : Project :=
  if eslCanSet p4 fid && !t.timeRemapEnabled then
    if |eslActualDur p4 fid - layerDurationQ cfg startFrame endFrame| > 1/100 then
      updateLayer p4 t.id (fun l =>
        { l with timeRemapEnabled := true
                 remapKeys := [(layerStartTimeQ cfg startFrame, (0 : ℚ)),
                   (layerStartTimeQ cfg startFrame + layerDurationQ cfg startFrame endFrame,
                     eslActualDur p4 fid)] })
    else p4
  else p4

/-- AEBridge_Startup.jsx 472-544: the whole footage block of
`ensureSourceLayer`, in source order. -/
def eslApply (cfg : SConfig) (p1 : Project) (t : Layer) (fid : Nat)
    (layerName : String) (startFrame endFrame : ℤ) : Project :=
  eslRemap cfg
    (eslTiming cfg (eslConform cfg (eslRename p1 t.id layerName) fid) t.id startFrame endFrame)
    t fid startFrame endFrame

/-- AEBridge_Startup.jsx 546-555: remove every other footage-backed layer of
the precomp that carries the reserved source-layer name (the downward removal
loop removes exactly the non-target matches). -/
def eslDedup (p : Project) (precompId tid : Nat) (layerName : String) : Project :=
  { p with layers := p.layers.filter (fun l =>
      l.id == tid || !(l.compId == precompId && srcLayerPred p layerName l)) }

/-- AEBridge_Startup.jsx 446-558 `ensureSourceLayer`. -/
def ensureSourceLayer (cfg : SConfig) (p0 : Project) (precompId : Nat)
    (footage : Option Nat) (layerName : String) (startFrame endFrame : ℤ) :
    Project × Option Nat :=
  match eslAcquire p0 precompId footage layerName with
  | none => (p0, none)
  | some (p1, t) =>
    let p2 :=
      match footage with
      | some fid => eslApply cfg p1 t fid layerName startFrame endFrame
      | none => p1
    (eslDedup p2 precompId t.id layerName, some t.id)

/-- AEBridge_Startup.jsx 627-634: remove every old missing-placeholder layer
of the precomp. -/
def removePlaceholders (p : Project) (preId : Nat) (missingName : String) : Project :=
  { p with layers := p.layers.filter (fun l =>
      !(l.compId == preId && l.name == missingName)) }

/-- The solid footage item `addSolid` creates (AEBridge_Startup.jsx 647). -/
def missingSolidItem (cfg : SConfig) (sid : Nat) (missingName : String) : PItem :=
  { id := sid, kind := ItemKind.solid, name := missingName, filePath := none
    duration := cfg.duration, frameRate := 0, width := cfg.width, height := cfg.height
    displayStartFrame := 0, workAreaStart := 0, workAreaDuration := 0
    conformFrameRate := 0, alphaStraight := false }

/-- The placeholder solid layer `addSolid` creates, with `startTime = 0` and
`outPoint = DURATION` applied right after (AEBridge_Startup.jsx 647-652). -/
def missingSolidLayer (cfg : SConfig) (lid preId sid : Nat) (missingName : String) : Layer :=
  { id := lid, compId := preId, name := missingName, sourceId := sid
    startTime := 0, inPoint := 0, outPoint := cfg.duration
    timeRemapEnabled := false, remapKeys := [] }

/-- AEBridge_Startup.jsx 636-653, footage unresolved: remove every old source
layer, then add a red placeholder solid spanning the full duration.
`preComp.layers.addSolid` creates a NEW solid footage item in the project on
every call; the old solid items of earlier runs are not removed. -/
def processMissing (cfg : SConfig) (p : Project) (preId : Nat) (it : ShotItem) : Project :=
  { nextId := p.nextId + 2
    items := p.items ++ [missingSolidItem cfg p.nextId (it.name ++ missingSuffix)]
    layers := missingSolidLayer cfg (p.nextId + 1) preId p.nextId (it.name ++ missingSuffix)
      :: p.layers.filter (fun l => !(l.compId == preId && l.name == (sourceTag ++ it.name))) }

/-- AEBridge_Startup.jsx 660-673: nest the precomp into the main composition
exactly once, spanning the full duration; skip if a layer sourced by a
composition of that name already exists. -/
def nestExists (p : Project) (mainId : Nat) (preName : String) : Bool :=
  (compLayers p mainId).any (fun l =>
    match findItem p l.sourceId with
    | some s => s.kind == ItemKind.comp && s.name == preName
    | none => false)

def nestIntoMain (cfg : SConfig) (p : Project) (mainId preId : Nat)
    (preName : String) : Project :=
  if nestExists p mainId preName then p
  else
    { p with nextId := p.nextId + 1
             layers := { id := p.nextId, compId := mainId, name := preName, sourceId := preId
                         startTime := 0, inPoint := 0, outPoint := cfg.duration
                         timeRemapEnabled := false, remapKeys := [] } :: p.layers }

/-- `it.first_file || it.path` (line 596). -/
def shotFileArg (it : ShotItem) : Option String :=
  match it.first_file with
  | some s => if s = "" then it.path else some s
  | none => it.path

structure ItemOutcome where
  proj : Project
  preId : Nat
  footageId : Option Nat
  srcLayerId : Option Nat
  deriving DecidableEq

/-- AEBridge_Startup.jsx 597-624 then 627-634: conform frame rate and alpha on
the resolved footage, then drop stale placeholder layers. -/
def prepResolved (cfg : SConfig) (p2 : Project) (preId fid : Nat) (it : ShotItem) : Project :=
  removePlaceholders
    (updateItem p2 fid (fun x =>
      { x with conformFrameRate := cfg.frameRate, alphaStraight := true }))
    preId (it.name ++ missingSuffix)

/-- Outcome of the per-shot loop body when footage is unresolved. -/
def processMissingOutcome (cfg : SConfig) (p2 : Project) (preId : Nat)
    (it : ShotItem) : ItemOutcome :=
  { proj := processMissing cfg (removePlaceholders p2 preId (it.name ++ missingSuffix)) preId it
    preId := preId, footageId := none, srcLayerId := none }

/-- Outcome of the per-shot loop body when footage resolved. -/
def processResolvedOutcome (cfg : SConfig) (mainId : Nat) (p2 : Project)
    (preId fid : Nat) (it : ShotItem) : ItemOutcome :=
  { proj := nestIntoMain cfg
      (ensureSourceLayer cfg (prepResolved cfg p2 preId fid it) preId (some fid)
        (sourceTag ++ it.name) it.first it.last).1 mainId preId (aeBridgeTag ++ it.name)
    preId := preId
    footageId := some fid
    srcLayerId := (ensureSourceLayer cfg (prepResolved cfg p2 preId fid it) preId (some fid)
        (sourceTag ++ it.name) it.first it.last).2 }

/-- One iteration of the per-shot loop, AEBridge_Startup.jsx 569-674: ensure
the child composition, resolve footage, conform frame rate and alpha on the
resolved footage, drop stale placeholders, then either install the missing
placeholder or bind the source layer and nest the precomp into the main
composition. -/
def processItem (cfg : SConfig) (h : Host) (mainId : Nat) (p : Project)
    (it : ShotItem) : Except Unit ItemOutcome :=
  match importOrUpdateSequence h (ensureComp cfg p (aeBridgeTag ++ it.name)).1
      (shotFileArg it) it.name with
  | Except.error e => Except.error e
  | Except.ok (p2, none) =>
    Except.ok (processMissingOutcome cfg p2 (ensureComp cfg p (aeBridgeTag ++ it.name)).2 it)
  | Except.ok (p2, some fid) =>
    Except.ok (processResolvedOutcome cfg mainId p2
      (ensureComp cfg p (aeBridgeTag ++ it.name)).2 fid it)

def runItems (cfg : SConfig) (h : Host) (mainId : Nat) :
    Project → List ShotItem → Except Unit Project
  | p, [] => Except.ok p
  | p, it :: rest =>
    match processItem cfg h mainId p it with
    | Except.error e => Except.error e
    | Except.ok o => runItems cfg h mainId o.proj rest

/-- The full reconciliation of one startup invocation (main composition sync
followed by the per-shot loop), AEBridge_Startup.jsx 560-674. -/
def runStartup (cfg : SConfig) (h : Host) (p0 : Project) : Except Unit Project :=
  let ec := ensureComp cfg p0 cfg.compName
  runItems cfg h ec.2 ec.1 cfg.items

/-- AEBridge_Startup.jsx 180-186: the startup script opens the project file if
it exists and otherwise creates a new project — there is no fatal check on a
missing `project_path` (a `File` built from an undefined path does not exist,
so the script silently proceeds with `app.newProject()`). -/
inductive ProjAction where
  | openExisting : ProjAction
  | newProject : ProjAction
  deriving DecidableEq

def openOrCreateProject (projectPath : Option String) (fs : List String) : ProjAction :=
  match projectPath with
  | some pth => if fs.contains pth then ProjAction.openExisting else ProjAction.newProject
  | none => ProjAction.newProject

/-! ### Derived predicates used in the claim statements -/

/-- Number of layers of the project satisfying a predicate. -/
def countLayers (p : Project) (f : Layer → Bool) : Nat := (p.layers.filter f).length

/-- Well-formedness of the layer store: host layer objects are distinct and
fresh ids are indeed fresh.  Holds for every project the host can actually
present (object identity is primitive there). -/
def layersOk (p : Project) : Prop :=
  (p.layers.map Layer.id).Nodup ∧ ∀ l ∈ p.layers, l.id < p.nextId

/-- Whether the resolver raised an exception. -/
def resolverRaised (r : Except Unit (Project × Option Nat)) : Bool :=
  match r with
  | Except.error _ => true
  | Except.ok _ => false

/-- The resolver reaches the fresh-import step exactly when the file exists,
no exact-path item matches, and no name match with a backing file exists. -/
def reachesFreshImport (h : Host) (p : Project) (ff : Option String)
    (layerName : String) : Bool :=
  match ff with
  | none => false
  | some f =>
    !(f = "") && h.fs.contains f && (findFootageByFirstFile p f).isNone &&
      (match findFootageByName p layerName with
       | some snf => snf.filePath.isNone
       | none => true)

/-- The layer state `ensureSourceLayer` leaves the target layer in, as a
function of the acquired layer `t1`, the natural footage duration and whether
time remapping can be enabled (mirrors AEBridge_Startup.jsx 472-544). -/
def eslFinalLayer (cfg : SConfig) (actualDur : ℚ) (canSet : Bool) (t1 : Layer)
    (nm : String) (a b : ℤ) : Layer :=
  if canSet && !t1.timeRemapEnabled then
    if |actualDur - layerDurationQ cfg a b| > 1/100 then
      { t1 with name := nm, startTime := layerStartTimeQ cfg a
                inPoint := layerStartTimeQ cfg a
                outPoint := layerStartTimeQ cfg a + layerDurationQ cfg a b
                timeRemapEnabled := true
                remapKeys := [(layerStartTimeQ cfg a, (0 : ℚ)),
                  (layerStartTimeQ cfg a + layerDurationQ cfg a b, actualDur)] }
    else
      { t1 with name := nm, startTime := layerStartTimeQ cfg a
                inPoint := layerStartTimeQ cfg a
                outPoint := layerStartTimeQ cfg a + layerDurationQ cfg a b }
  else
    { t1 with name := nm, startTime := layerStartTimeQ cfg a
              inPoint := layerStartTimeQ cfg a
              outPoint := layerStartTimeQ cfg a + layerDurationQ cfg a b }

/-! ### Concrete inputs used by counterexamples and witnesses -/

def c1cfg : SConfig :=
  { frameRate := 24, globalFirst := 1, globalLast := 2, compName := "AEBridge"
    width := 10, height := 10
    items := [{ name := "shot", first_file := some "/seq/shot.0001.exr", path := none
                first := 1, last := 2 }] }

def c1host : Host :=
  { fs := [], mediaDuration := fun _ => 1, importName := fun s => s
    reloadOk := true, replaceSeqOk := true, replaceOk := true, importOk := true }

def c1once : Project :=
  match runStartup c1cfg c1host emptyProject with
  | Except.ok p => p
  | Except.error _ => emptyProject

def c1twice : Project :=
  match runStartup c1cfg c1host c1once with
  | Except.ok p => p
  | Except.error _ => emptyProject

def c2vals : RenderVals :=
  { projectPath := some (JVal.jstr "/p.aep"), compName := JVal.jstr "AEBridge"
    frameRate := JVal.jnum 24, globalFirst := JVal.jnum 1001, globalLast := JVal.jnum 1100
    outputPath := some (JVal.jstr "/out/s.png"), templateName := JVal.jstr "MyTemplate"
    desiredChannels := JVal.jstr "RGB + Alpha", desiredDepth := JVal.jstr "16 Bits/Channel"
    desiredColor := JVal.jstr "Straight (Unmatted)", desiredQuality := JVal.jnum 100
    desiredPremult := false }

def c2host : OMHost :=
  { templates := ["PNG Sequence", "Lossless"], accepts := fun _ _ => true, xmpOk := true }

def c3host : Host :=
  { fs := ["/a/x.0001.exr"], mediaDuration := fun _ => 1, importName := fun s => s
    reloadOk := true, replaceSeqOk := true, replaceOk := true, importOk := false }

def c7vals : RenderVals := { c2vals with templateName := JVal.jstr "" }

def c6cfg : SConfig :=
  { frameRate := 24, globalFirst := 1, globalLast := 48, compName := "AEBridge"
    width := 10, height := 10, items := [] }

def c6comp : PItem :=
  { id := 0, kind := ItemKind.comp, name := "[AEBridge]_shot", filePath := none
    duration := 2, frameRate := 24, width := 10, height := 10, displayStartFrame := 1
    workAreaStart := 0, workAreaDuration := 2, conformFrameRate := 0, alphaStraight := false }

def c6foot : PItem :=
  { id := 1, kind := ItemKind.footage, name := "shot.0001.exr"
    filePath := some "/a/shot.0001.exr", duration := 100, frameRate := 24
    width := 10, height := 10, displayStartFrame := 0, workAreaStart := 0
    workAreaDuration := 0, conformFrameRate := 0, alphaStraight := false }

/-- A source layer left by a previous run with remapping already enabled and a
stale pair of remap keyframes. -/
def c6layer : Layer :=
  { id := 2, compId := 0, name := "[AEBridge]_Source_shot", sourceId := 1
    startTime := 0, inPoint := 0, outPoint := 1, timeRemapEnabled := true
    remapKeys := [(5, 7)] }

def c6p : Project := { nextId := 3, items := [c6comp, c6foot], layers := [c6layer] }

/-- Same project but with remapping not yet enabled on the source layer. -/
def c6wlayer : Layer := { c6layer with timeRemapEnabled := false, remapKeys := [] }

def c6wp : Project := { nextId := 3, items := [c6comp, c6foot], layers := [c6wlayer] }

def wCfg : SConfig :=
  { frameRate := 24, globalFirst := 1, globalLast := 2, compName := "AEBridge"
    width := 10, height := 10, items := [] }

def wHost : Host :=
  { fs := ["/seq/shot.0001.exr"], mediaDuration := fun _ => 2, importName := fun s => s
    reloadOk := true, replaceSeqOk := true, replaceOk := true, importOk := true }

def wItem : ShotItem :=
  { name := "shot", first_file := some "/seq/shot.0001.exr", path := none, first := 1, last := 2 }

def wOut : ItemOutcome :=
  match processItem wCfg wHost 50 emptyProject wItem with
  | Except.ok o => o
  | Except.error _ => { proj := emptyProject, preId := 0, footageId := none, srcLayerId := none }

def m8item : ShotItem :=
  { name := "shot", first_file := some "/gone/shot.0001.exr", path := none, first := 1, last := 2 }

def m8out : ItemOutcome :=
  match processItem wCfg wHost 50 emptyProject m8item with
  | Except.ok o => o
  | Except.error _ => { proj := emptyProject, preId := 0, footageId := some 0, srcLayerId := none }

def c9cfg : SConfig :=
  { frameRate := 24, globalFirst := 1, globalLast := 2, compName := "AEBridge"
    width := 10, height := 10, items := [] }

def c9host : Host :=
  { fs := [], mediaDuration := fun _ => 1, importName := fun s => s
    reloadOk := true, replaceSeqOk := true, replaceOk := true, importOk := true }

def c9post : Project :=
  match runStartup c9cfg c9host emptyProject with
  | Except.ok p => p
  | Except.error _ => emptyProject

def c10sraw : RawStartup :=
  ⟨none, none, none, none, none, none, none, none, none, none, none, none, none⟩

def c10rraw : RawRender := ⟨none, none, none, none, none, none, none⟩

/-! ### Generic list lemmas -/

theorem findKeyMap {α : Type} (key : α → Nat) (g : α → α) (hg : ∀ x, key (g x) = key x)
    (l : List α) (k : Nat) :
    (l.map g).find? (fun x => key x == k) = (l.find? (fun x => key x == k)).map g := by
  induction l with
  | nil => rfl
  | cons a tl ih =>
    by_cases hk : key a = k
    · rw [List.map_cons, List.find?_cons_of_pos _ (by simp [hg, hk]),
        List.find?_cons_of_pos _ (by simp [hk])]
      rfl
    · rw [List.map_cons, List.find?_cons_of_neg _ (by simp [hg, hk]),
        List.find?_cons_of_neg _ (by simp [hk]), ih]

theorem findFilterInvariant {α : Type} (pr q : α → Bool) (l : List α)
    (h : ∀ x, pr x = true → q x = true) :
    (l.filter q).find? pr = l.find? pr := by
  induction l with
  | nil => rfl
  | cons a tl ih =>
    rw [List.filter_cons]
    by_cases hpa : pr a = true
    · rw [if_pos (h a hpa), List.find?_cons_of_pos _ hpa, List.find?_cons_of_pos _ hpa]
    · by_cases hqa : q a = true
      · rw [if_pos hqa, List.find?_cons_of_neg _ hpa, List.find?_cons_of_neg _ hpa, ih]
      · rw [if_neg hqa, List.find?_cons_of_neg _ hpa, ih]

theorem findOfMemNodup {α : Type} (key : α → Nat) (l : List α) (hn : (l.map key).Nodup)
    (t : α) (ht : t ∈ l) : l.find? (fun x => key x == key t) = some t := by
  induction l with
  | nil => cases ht
  | cons a tl ih =>
    rw [List.map_cons, List.nodup_cons] at hn
    rcases List.mem_cons.1 ht with rfl | htl
    · exact List.find?_cons_of_pos _ (by simp)
    · have hne : key a ≠ key t := by
        intro he
        exact hn.1 (he ▸ List.mem_map_of_mem key htl)
      rw [List.find?_cons_of_neg _ (by simp [hne]), ih hn.2 htl]

theorem findIsSomeOfMem {α : Type} (pr : α → Bool) (l : List α) (t : α) (ht : t ∈ l)
    (hp : pr t = true) : (l.find? pr).isSome = true := by
  induction l with
  | nil => cases ht
  | cons a tl ih =>
    by_cases hpa : pr a = true
    · rw [List.find?_cons_of_pos _ hpa]; rfl
    · rcases List.mem_cons.1 ht with rfl | htl
      · exact absurd hp hpa
      · rw [List.find?_cons_of_neg _ hpa]; exact ih htl

theorem filterLenLeOne {α : Type} (key : α → Nat) (l : List α) (hn : (l.map key).Nodup)
    (pr : α → Bool) (t : Nat) (hp : ∀ x ∈ l, pr x = true → key x = t) :
    (l.filter pr).length ≤ 1 := by
  induction l with
  | nil => simp
  | cons a tl ih =>
    rw [List.map_cons, List.nodup_cons] at hn
    rw [List.filter_cons]
    by_cases hpa : pr a = true
    · have hka := hp a (List.mem_cons_self a tl) hpa
      have hnil : tl.filter pr = [] := by
        rw [List.filter_eq_nil_iff]
        intro x hx hprx
        have hkx := hp x (List.mem_cons_of_mem a hx) hprx
        exact hn.1 ((hka.trans hkx.symm) ▸ List.mem_map_of_mem key hx)
      rw [if_pos hpa, hnil]
      simp
    · rw [if_neg hpa]
      exact ih hn.2 (fun x hx => hp x (List.mem_cons_of_mem a hx))

theorem filterLenZero {α : Type} (l : List α) (pr : α → Bool)
    (h : ∀ x ∈ l, ¬ pr x = true) : (l.filter pr).length = 0 := by
  rw [List.filter_eq_nil_iff.2 h]; rfl

theorem filterLenMono {α : Type} (l : List α) (prA prB : α → Bool)
    (h : ∀ x, prA x = true → prB x = true) :
    (l.filter prA).length ≤ (l.filter prB).length := by
  induction l with
  | nil => simp
  | cons a tl ih =>
    rw [List.filter_cons, List.filter_cons]
    by_cases ha : prA a = true
    · rw [if_pos ha, if_pos (h a ha)]
      simpa using ih
    · rw [if_neg ha]
      by_cases hb : prB a = true
      · rw [if_pos hb]; exact le_trans ih (by simp)
      · rw [if_neg hb]; exact ih

/-! ### State and invariant preservation lemmas -/

theorem layersOkOfEq (p q : Project) (hl : q.layers = p.layers) (hn : p.nextId ≤ q.nextId)
    (h : layersOk p) : layersOk q := by
  refine ⟨hl ▸ h.1, ?_⟩
  intro l hm
  exact lt_of_lt_of_le (h.2 l (hl ▸ hm)) hn

theorem layersOkFilter (p : Project) (q : Layer → Bool) (h : layersOk p) :
    layersOk { p with layers := p.layers.filter q } := by
  refine ⟨List.Nodup.sublist ((List.filter_sublist p.layers).map Layer.id) h.1, ?_⟩
  intro l hm
  exact h.2 l (List.mem_of_mem_filter hm)

theorem layersOkUpdateLayer (p : Project) (lid : Nat) (f : Layer → Layer)
    (hf : ∀ l, (f l).id = l.id) (h : layersOk p) : layersOk (updateLayer p lid f) := by
  have hg : ∀ l : Layer, (if l.id == lid then f l else l).id = l.id := by
    intro l; by_cases hb : (l.id == lid) = true <;> simp [hb, hf]
  have hmap : (p.layers.map (fun l => if l.id == lid then f l else l)).map Layer.id
      = p.layers.map Layer.id := by
    rw [List.map_map]
    exact List.map_congr_left (fun l _ => hg l)
  constructor
  · show ((p.layers.map fun l => if l.id == lid then f l else l).map Layer.id).Nodup
    rw [hmap]; exact h.1
  · intro l hm
    rcases List.mem_map.1 hm with ⟨x, hx, rfl⟩
    show (if x.id == lid then f x else x).id < p.nextId
    rw [hg x]
    exact h.2 x hx

theorem layersOkPrepend (p : Project) (nl : Layer) (hid : nl.id = p.nextId)
    (h : layersOk p) :
    layersOk { p with nextId := p.nextId + 1, layers := nl :: p.layers } := by
  constructor
  · rw [List.map_cons, List.nodup_cons]
    refine ⟨?_, h.1⟩
    intro hmem
    rcases List.mem_map.1 hmem with ⟨x, hx, hxe⟩
    exact absurd (hxe ▸ hid ▸ rfl : x.id = p.nextId)
      (Nat.ne_of_lt (h.2 x hx))
  · intro l hm
    rcases List.mem_cons.1 hm with rfl | hl
    · exact hid ▸ Nat.lt_succ_self _
    · exact Nat.lt_succ_of_lt (h.2 l hl)

theorem ensureCompLayers (cfg : SConfig) (p : Project) (n : String) :
    (ensureComp cfg p n).1.layers = p.layers := by
  unfold ensureComp
  split <;> rfl

theorem ensureCompNextId (cfg : SConfig) (p : Project) (n : String) :
    p.nextId ≤ (ensureComp cfg p n).1.nextId := by
  unfold ensureComp
  split
  · exact le_refl _
  · exact Nat.le_succ _

theorem importFreshState (h : Host) (q : Project) (path : String) (p2 : Project)
    (fo : Option Nat) (hok : importFresh h q path = Except.ok (p2, fo)) :
    p2.layers = q.layers ∧ q.nextId ≤ p2.nextId := by
  unfold importFresh at hok
  split at hok
  · simp only [Except.ok.injEq, Prod.mk.injEq] at hok
    rw [← hok.1]
    exact ⟨rfl, Nat.le_succ _⟩
  · simp at hok

theorem reloadPState (h : Host) (p : Project) (iid : Nat) :
    (reloadFootage h p iid).layers = p.layers ∧ p.nextId ≤ (reloadFootage h p iid).nextId := by
  unfold reloadFootage
  split <;> exact ⟨rfl, le_refl _⟩

theorem reloadUpdState (h : Host) (p : Project) (j iid : Nat) (f : PItem → PItem) :
    (reloadFootage h (updateItem p j f) iid).layers = p.layers ∧
      p.nextId ≤ (reloadFootage h (updateItem p j f) iid).nextId := by
  unfold reloadFootage
  split <;> exact ⟨rfl, le_refl _⟩

theorem resolverOkState (h : Host) (p : Project) (ff : Option String) (n : String)
    (p2 : Project) (fo : Option Nat)
    (hok : importOrUpdateSequence h p ff n = Except.ok (p2, fo)) :
    p2.layers = p.layers ∧ p.nextId ≤ p2.nextId := by
  unfold importOrUpdateSequence at hok
  split at hok
  · simp only [Except.ok.injEq, Prod.mk.injEq] at hok
    exact hok.1 ▸ ⟨rfl, le_refl _⟩
  · split at hok
    · simp only [Except.ok.injEq, Prod.mk.injEq] at hok
      exact hok.1 ▸ ⟨rfl, le_refl _⟩
    · split at hok
      · simp only [Except.ok.injEq, Prod.mk.injEq] at hok
        exact hok.1 ▸ ⟨rfl, le_refl _⟩
      · split at hok
        · simp only [Except.ok.injEq, Prod.mk.injEq] at hok
          rw [← hok.1]; exact reloadPState h p _
        · split at hok
          · split at hok
            · split at hok
              · split at hok
                · simp only [Except.ok.injEq, Prod.mk.injEq] at hok
                  rw [← hok.1]; exact reloadUpdState h p _ _ _
                · split at hok
                  · simp only [Except.ok.injEq, Prod.mk.injEq] at hok
                    rw [← hok.1]; exact reloadUpdState h p _ _ _
                  · simp only [Except.ok.injEq, Prod.mk.injEq] at hok
                    rw [← hok.1]; exact reloadPState h p _
              · simp only [Except.ok.injEq, Prod.mk.injEq] at hok
                rw [← hok.1]; exact reloadPState h p _
            · exact importFreshState h p _ p2 fo hok
          · exact importFreshState h p _ p2 fo hok

theorem findItemUpdate (q : Project) (j : Nat) (f : PItem → PItem)
    (hf : ∀ x, (f x).id = x.id) (i : Nat) :
    findItem (updateItem q j f) i
      = (findItem q i).map (fun x => if x.id == j then f x else x) := by
  unfold findItem updateItem
  exact findKeyMap PItem.id _
    (fun x => by by_cases hb : (x.id == j) = true <;> simp [hb, hf]) q.items i

theorem getLayerUpdate (q : Project) (j : Nat) (f : Layer → Layer)
    (hf : ∀ x, (f x).id = x.id) (i : Nat) :
    getLayer (updateLayer q j f) i
      = (getLayer q i).map (fun x => if x.id == j then f x else x) := by
  unfold getLayer updateLayer
  exact findKeyMap Layer.id _
    (fun x => by by_cases hb : (x.id == j) = true <;> simp [hb, hf]) q.layers i

theorem getLayerUpdateSelf (q : Project) (t : Layer) (f : Layer → Layer)
    (hf : ∀ x, (f x).id = x.id) (ht : getLayer q t.id = some t) :
    getLayer (updateLayer q t.id f) t.id = some (f t) := by
  rw [getLayerUpdate q t.id f hf t.id, ht]
  simp

theorem getLayerOfMem (q : Project) (t : Layer) (hn : (q.layers.map Layer.id).Nodup)
    (ht : t ∈ q.layers) : getLayer q t.id = some t :=
  findOfMemNodup Layer.id q.layers hn t ht

theorem getLayerFilterKeep (q : Project) (qf : Layer → Bool) (i : Nat)
    (hq : ∀ l : Layer, (l.id == i) = true → qf l = true) :
    getLayer { q with layers := q.layers.filter qf } i = getLayer q i :=
  findFilterInvariant _ qf q.layers hq

theorem getLayerPrependNe (q : Project) (nl : Layer) (n2 i : Nat) (hne : nl.id ≠ i) :
    getLayer { q with nextId := n2, layers := nl :: q.layers } i = getLayer q i := by
  unfold getLayer
  exact List.find?_cons_of_neg _ (by simp [hne])

theorem findItemIsSomeOfMem (q : Project) (x : PItem) (hx : x ∈ q.items) :
    (findItem q x.id).isSome = true :=
  findIsSomeOfMem _ q.items x hx (by simp)

theorem updateItemFound (q : Project) (iid : Nat) (f : PItem → PItem)
    (hf : ∀ x, (f x).id = x.id) (hs : (findItem q iid).isSome = true) :
    (findItem (updateItem q iid f) iid).isSome = true := by
  rw [findItemUpdate q iid f hf iid]
  cases ho : findItem q iid with
  | none => rw [ho] at hs; simp at hs
  | some x => simp

theorem reloadFound (h : Host) (q : Project) (iid : Nat)
    (hs : (findItem q iid).isSome = true) :
    (findItem (reloadFootage h q iid) iid).isSome = true := by
  unfold reloadFootage
  split
  · exact updateItemFound q iid _ (fun x => by cases hfp : x.filePath <;> simp [hfp]) hs
  · exact hs

theorem importFreshFound (h : Host) (q : Project) (path : String) (p2 : Project)
    (fid : Nat) (hok : importFresh h q path = Except.ok (p2, some fid)) :
    (findItem p2 fid).isSome = true := by
  unfold importFresh at hok
  split at hok
  · simp only [Except.ok.injEq, Prod.mk.injEq, Option.some.injEq] at hok
    obtain ⟨h1, h2⟩ := hok
    subst h1
    refine findIsSomeOfMem _ _ _ (List.mem_append_right _ (List.mem_singleton.2 rfl)) ?_
    simp [h2]
  · simp at hok

theorem findFootageByNameMem (p : Project) (n : String) (snf : PItem)
    (hf : findFootageByName p n = some snf) : snf ∈ p.items := by
  unfold findFootageByName at hf
  split at hf
  · cases hf
  · split at hf
    · rename_i it hit
      cases hf
      exact List.mem_of_find?_eq_some hit
    · exact List.mem_of_find?_eq_some hf

theorem resolverFoundItem (h : Host) (p : Project) (ff : Option String) (n : String)
    (p2 : Project) (fid : Nat)
    (hok : importOrUpdateSequence h p ff n = Except.ok (p2, some fid)) :
    (findItem p2 fid).isSome = true := by
  unfold importOrUpdateSequence at hok
  split at hok
  · simp at hok
  · split at hok
    · simp at hok
    · split at hok
      · simp at hok
      · split at hok
        · rename_i ex hex
          simp only [Except.ok.injEq, Prod.mk.injEq, Option.some.injEq] at hok
          obtain ⟨h1, h2⟩ := hok
          subst h1; subst h2
          exact reloadFound h p ex.id (findItemIsSomeOfMem p ex (List.mem_of_find?_eq_some hex))
        · split at hok
          · split at hok
            · rename_i snf hsnf oldFile hfp hne
              split at hok
              · split at hok
                · simp only [Except.ok.injEq, Prod.mk.injEq, Option.some.injEq] at hok
                  obtain ⟨h1, h2⟩ := hok
                  subst h1; subst h2
                  exact reloadFound h _ snf.id (updateItemFound p snf.id _
                    (fun x => rfl)
                    (findItemIsSomeOfMem p snf (findFootageByNameMem p n snf hsnf)))
                · split at hok
                  · simp only [Except.ok.injEq, Prod.mk.injEq, Option.some.injEq] at hok
                    obtain ⟨h1, h2⟩ := hok
                    subst h1; subst h2
                    exact reloadFound h _ snf.id (updateItemFound p snf.id _
                      (fun x => rfl)
                      (findItemIsSomeOfMem p snf (findFootageByNameMem p n snf hsnf)))
                  · simp only [Except.ok.injEq, Prod.mk.injEq, Option.some.injEq] at hok
                    obtain ⟨h1, h2⟩ := hok
                    subst h1; subst h2
                    exact reloadFound h p snf.id
                      (findItemIsSomeOfMem p snf (findFootageByNameMem p n snf hsnf))
              · rename_i hne2
                simp only [Except.ok.injEq, Prod.mk.injEq, Option.some.injEq] at hok
                obtain ⟨h1, h2⟩ := hok
                subst h1; subst h2
                exact reloadFound h p snf.id
                  (findItemIsSomeOfMem p snf (findFootageByNameMem p n snf hsnf))
            · exact importFreshFound h p _ p2 fid hok
          · exact importFreshFound h p _ p2 fid hok

/-! ### Claim C1 -/

/-- C1: the spec claims full reconciliation is idempotent — a second run with
the identical config leaves the graph bit-identical, including the
solid/placeholder items created for unresolved footage.  The code contradicts
this: on each run the unresolved-footage path removes the old placeholder
layer but calls `addSolid` again, which creates a fresh solid footage item in
the project, so the second run grows the item list from 3 to 4 while the layer
count stays at 1. -/
theorem c1_missing_footage_rerun_not_idempotent :
    c1once.items.length = 3 ∧ c1twice.items.length = 4 ∧
    c1once.layers.length = 1 ∧ c1twice.layers.length = 1 ∧ c1twice ≠ c1once :=
  ⟨rfl, rfl, rfl, rfl, by decide⟩

/-! ### Claim C2 -/

/-- C2 counterexample: with templates `PNG Sequence` and `Lossless` available
and configured template name `MyTemplate`, `configureOutputModule` emits only
the warning and returns failure — the trace contains no fallback writes at
all, so it does not fall through to the fallback path as the claim states. -/
theorem c2_template_miss_no_fallback_cex :
    configureOutputModule c2host c2vals "MyTemplate" "/out/s.png" =
      (false, [REvent.warnAlert "WARNING: Output template not found: MyTemplate"]) := by
  decide

/-- C2 amended: for every non-empty template name that matches no available
template, `configureOutputModule` emits the warning and returns failure
WITHOUT attempting the fallback path (the caller then treats the run as
fatally misconfigured). -/
theorem c2_template_miss_warn_and_fail (h : OMHost) (v : RenderVals) (tn outPath : String)
    (hne : tn ≠ "") (hmiss : applyTemplateByNames h.templates [tn] = none) :
    configureOutputModule h v tn outPath =
      (false, [REvent.warnAlert ("WARNING: Output template not found: " ++ tn)]) := by
  unfold configureOutputModule configureWithTemplate
  rw [if_pos hne, hmiss]
  simp

/-- C2 witness. -/
theorem c2_template_miss_warn_and_fail_w :
    ("MyTemplate" ≠ "" ∧ applyTemplateByNames c2host.templates ["MyTemplate"] = none) ∧
    configureOutputModule c2host c2vals "MyTemplate" "/out/s.png" =
      (false, [REvent.warnAlert ("WARNING: Output template not found: " ++ "MyTemplate")]) :=
  ⟨⟨by decide, by decide⟩,
    c2_template_miss_warn_and_fail c2host c2vals "MyTemplate" "/out/s.png"
      (by decide) (by decide)⟩

/-! ### Claim C3 -/

/-- C3 counterexample: the file exists on the host, no existing item matches,
and the host import primitive fails — the resolver RAISES (`Except.error`)
instead of degrading to NotFound, because `proj.importFile` is the one
resolution step the source does not guard with try/catch. -/
theorem c3_import_failure_raises_cex :
    importOrUpdateSequence c3host emptyProject (some "/a/x.0001.exr") "x"
        = Except.error () ∧
    c3host.fs.contains "/a/x.0001.exr" = true :=
  ⟨rfl, rfl⟩

/-- C3 amended: the resolver raises exactly when the fresh-import step is
reached and the host import fails; failures of the exact-path and name-match
steps degrade without raising, and a missing file yields NotFound. -/
theorem c3_raise_iff_fresh_import_fails (h : Host) (p : Project) (ff : Option String)
    (n : String) :
    resolverRaised (importOrUpdateSequence h p ff n) = true ↔
      reachesFreshImport h p ff n = true ∧ h.importOk = false := by
  cases ff with
  | none => simp [importOrUpdateSequence, reachesFreshImport, resolverRaised]
  | some f =>
    by_cases hf : f = ""
    · simp [importOrUpdateSequence, reachesFreshImport, resolverRaised, hf]
    · by_cases hfs : f ∈ h.fs
      · cases hx : findFootageByFirstFile p f with
        | some ex =>
          simp [importOrUpdateSequence, reachesFreshImport, resolverRaised, hf, hfs, hx]
        | none =>
          cases hn : findFootageByName p n with
          | some snf =>
            cases hsf : snf.filePath with
            | some oldFile =>
              by_cases hne : oldFile ≠ f
              · simp only [importOrUpdateSequence, reachesFreshImport, resolverRaised,
                  hf, hfs, hx, hn, hsf]
                split_ifs <;> simp [hf, hfs]
              · simp only [importOrUpdateSequence, reachesFreshImport, resolverRaised,
                  hf, hfs, hx, hn, hsf]
                split_ifs <;> simp [hf, hfs]
            | none =>
              simp only [importOrUpdateSequence, reachesFreshImport, resolverRaised,
                hf, hfs, hx, hn, hsf, importFresh]
              by_cases hi : h.importOk <;> simp [hi, hf, hfs]
          | none =>
            simp only [importOrUpdateSequence, reachesFreshImport, resolverRaised,
              hf, hfs, hx, hn, importFresh]
            by_cases hi : h.importOk <;> simp [hi, hf, hfs]
      · simp [importOrUpdateSequence, reachesFreshImport, resolverRaised, hf, hfs]

/-! ### Claim C5 -/

/-- C5 counterexample: at `globalFirst = 1001`, `frameRate = 24`, the
time-offset fallback denotes start frame 1000 while the primary mechanism sets
start frame 1001 — the two mechanisms are not equivalent. -/
theorem c5_fallback_off_by_one_cex :
    frameOfDisplayStartTime (fallbackDisplayStartTime 1001 24) 24 = 1000 ∧
    primaryDisplayStartFrame 1001 = 1001 ∧ ((1000 : ℚ) ≠ 1001) := by
  refine ⟨by decide, rfl, by decide⟩

/-- C5 amended: for every `globalFirst` and every nonzero frame rate, the
fallback `displayStartTime = (globalFirst - 1) / frameRate` denotes start
frame `globalFirst - 1`: the fallback is off by exactly one frame from the
primary mechanism, never equivalent to it. -/
theorem c5_fallback_denotes_prev_frame (g : ℤ) (fr : ℚ) (hfr : fr ≠ 0) :
    frameOfDisplayStartTime (fallbackDisplayStartTime g fr) fr = (g : ℚ) - 1 := by
  unfold frameOfDisplayStartTime fallbackDisplayStartTime
  exact div_mul_cancel₀ _ hfr

/-- C5 witness. -/
theorem c5_fallback_denotes_prev_frame_w :
    ((24 : ℚ) ≠ 0) ∧
    frameOfDisplayStartTime (fallbackDisplayStartTime 1001 24) 24 = ((1001 : ℤ) : ℚ) - 1 :=
  ⟨by norm_num, c5_fallback_denotes_prev_frame 1001 24 (by norm_num)⟩

/-! ### Claim C7 -/

/-- C7: in every successful output-module configuration run — template path
and fallback path alike — the last write in the trace is the destination-file
assignment: every template application, channel/depth/color/quality write and
numbering-start write precedes it, and no settings write follows it. -/
theorem c7_destination_file_last_write (h : OMHost) (v : RenderVals) (outPath : String)
    (hok : (renderOMRun h v outPath).1 = true) :
    (renderOMRun h v outPath).2.getLast? = some (REvent.setFile outPath) := by
  unfold renderOMRun at hok ⊢
  cases hr : configureOutputModule h v (templateNameStr v) outPath with
  | mk s tr =>
    cases s
    · rw [hr] at hok
      simp at hok
    · exact List.getLast?_concat _

/-- C7 witness: an empty template name takes the fallback path, which succeeds
with the `PNG Sequence` template available, and the last write is the file. -/
theorem c7_destination_file_last_write_w :
    (renderOMRun c2host c7vals "/out/s.png").1 = true ∧
    (renderOMRun c2host c7vals "/out/s.png").2.getLast? = some (REvent.setFile "/out/s.png") :=
  ⟨by decide, c7_destination_file_last_write c2host c7vals "/out/s.png" (by decide)⟩

/-! ### Claim C9 -/

/-- C9 counterexample: a startup config with `project_path` absent does NOT
stop — the startup script has no check: the nonexistent file path leads to
`app.newProject()` and the run completes successfully, mutating the graph (a
main composition is created). -/
theorem c9_startup_missing_path_proceeds_cex :
    openOrCreateProject none [] = ProjAction.newProject ∧
    runStartup c9cfg c9host emptyProject = Except.ok c9post ∧
    c9post.items.length = 1 ∧ c9post.layers.length = 0 :=
  ⟨rfl, rfl, rfl, rfl⟩

/-- C9 amended: only the render-only invocation stops with a fatal,
user-visible error before any graph mutation when `project_path` is missing
(or falsy); the startup invocation performs no such check and proceeds to
create a new project. -/
theorem c9_missing_path_fatal_render_only (c : RawRender) (fs comps : List String)
    (h : OMHost) (fs2 : List String) (hmiss : optTruthy c.project_path = false) :
    renderRun c fs comps h = (some RenderFatal.missingRequiredFields, []) ∧
    openOrCreateProject none fs2 = ProjAction.newProject := by
  constructor
  · unfold renderRun
    rw [if_pos]
    rw [hmiss]
    rfl
  · rfl

/-- C9 witness. -/
theorem c9_missing_path_fatal_render_only_w :
    optTruthy c10rraw.project_path = false ∧
    (renderRun c10rraw [] [] c2host = (some RenderFatal.missingRequiredFields, []) ∧
      openOrCreateProject none [] = ProjAction.newProject) :=
  ⟨rfl, c9_missing_path_fatal_render_only c10rraw [] [] c2host [] rfl⟩

/-! ### Claim C10 -/

/-- C10: a top-level config field present with a falsy JSON value behaves
exactly as if the field were absent — the documented default is substituted —
for every defaulted top-level field of both config variants; and the
`global_first` default is 1 in the startup variant and 0 in the render-only
variant. (`project_path` has no default in either variant; its handling is the
subject of C9.) -/
theorem c10_falsy_fields_use_defaults (c : RawStartup) (rc : RawRender) (v : JVal)
    (hv : truthy v = false) :
    (parseStartup { c with global_first := some v }).GLOBAL_FIRST = JVal.jnum 1 ∧
    (parseRender { rc with global_first := some v }).globalFirst = JVal.jnum 0 ∧
    parseStartup { c with frame_rate := some v } = parseStartup { c with frame_rate := none } ∧
    parseStartup { c with global_first := some v }
      = parseStartup { c with global_first := none } ∧
    parseStartup { c with global_last := some v }
      = parseStartup { c with global_last := none } ∧
    parseStartup { c with comp_name := some v } = parseStartup { c with comp_name := none } ∧
    parseStartup { c with width := some v } = parseStartup { c with width := none } ∧
    parseStartup { c with height := some v } = parseStartup { c with height := none } ∧
    parseStartup { c with output_path := some v }
      = parseStartup { c with output_path := none } ∧
    parseStartup { c with should_render := some v }
      = parseStartup { c with should_render := none } ∧
    parseStartup { c with nuke_colorspace := some v }
      = parseStartup { c with nuke_colorspace := none } ∧
    parseStartup { c with nuke_working_space := some v }
      = parseStartup { c with nuke_working_space := none } ∧
    parseStartup { c with nuke_output_transform := some v }
      = parseStartup { c with nuke_output_transform := none } ∧
    parseStartup { c with aces_compliant := some v }
      = parseStartup { c with aces_compliant := none } ∧
    parseRender { rc with comp_name := some v } = parseRender { rc with comp_name := none } ∧
    parseRender { rc with frame_rate := some v } = parseRender { rc with frame_rate := none } ∧
    parseRender { rc with global_first := some v }
      = parseRender { rc with global_first := none } ∧
    parseRender { rc with global_last := some v }
      = parseRender { rc with global_last := none } := by
  refine ⟨?_, ?_, ?_, ?_, ?_, ?_, ?_, ?_, ?_, ?_, ?_, ?_, ?_, ?_, ?_, ?_, ?_, ?_⟩ <;>
    simp [parseStartup, parseRender, jsOr, hv]

/-- C10 witness: the falsy value 0 in `global_first` yields the documented
defaults 1 (startup) and 0 (render-only). -/
theorem c10_falsy_fields_use_defaults_w :
    truthy (JVal.jnum 0) = false ∧
    (parseStartup { c10sraw with global_first := some (JVal.jnum 0) }).GLOBAL_FIRST
      = JVal.jnum 1 ∧
    (parseRender { c10rraw with global_first := some (JVal.jnum 0) }).globalFirst
      = JVal.jnum 0 :=
  ⟨by decide,
    (c10_falsy_fields_use_defaults c10sraw c10rraw (JVal.jnum 0) (by decide)).1,
    (c10_falsy_fields_use_defaults c10sraw c10rraw (JVal.jnum 0) (by decide)).2.1⟩

/-! ### Characterization of ensureSourceLayer -/

theorem eslFinalId (cfg : SConfig) (d : ℚ) (c : Bool) (t1 : Layer) (nm : String) (a b : ℤ) :
    (eslFinalLayer cfg d c t1 nm a b).id = t1.id := by
  unfold eslFinalLayer; split_ifs <;> rfl

theorem eslFinalStartTime (cfg : SConfig) (d : ℚ) (c : Bool) (t1 : Layer) (nm : String)
    (a b : ℤ) : (eslFinalLayer cfg d c t1 nm a b).startTime = layerStartTimeQ cfg a := by
  unfold eslFinalLayer; split_ifs <;> rfl

theorem eslFinalInPoint (cfg : SConfig) (d : ℚ) (c : Bool) (t1 : Layer) (nm : String)
    (a b : ℤ) : (eslFinalLayer cfg d c t1 nm a b).inPoint = layerStartTimeQ cfg a := by
  unfold eslFinalLayer; split_ifs <;> rfl

theorem eslFinalOutPoint (cfg : SConfig) (d : ℚ) (c : Bool) (t1 : Layer) (nm : String)
    (a b : ℤ) : (eslFinalLayer cfg d c t1 nm a b).outPoint
      = layerStartTimeQ cfg a + layerDurationQ cfg a b := by
  unfold eslFinalLayer; split_ifs <;> rfl

theorem eslFinalRemapOfEnabled (cfg : SConfig) (d : ℚ) (c : Bool) (t1 : Layer) (nm : String)
    (a b : ℤ) (he : t1.timeRemapEnabled = true) :
    (eslFinalLayer cfg d c t1 nm a b).timeRemapEnabled = true ∧
    (eslFinalLayer cfg d c t1 nm a b).remapKeys = t1.remapKeys := by
  unfold eslFinalLayer
  rw [he]
  simp [he]

theorem eslFinalRemapOfRebuild (cfg : SConfig) (d : ℚ) (t1 : Layer) (nm : String) (a b : ℤ)
    (he : t1.timeRemapEnabled = false) (hd : |d - layerDurationQ cfg a b| > 1/100) :
    (eslFinalLayer cfg d true t1 nm a b).timeRemapEnabled = true ∧
    (eslFinalLayer cfg d true t1 nm a b).remapKeys
      = [(layerStartTimeQ cfg a, (0 : ℚ)),
         (layerStartTimeQ cfg a + layerDurationQ cfg a b, d)] := by
  unfold eslFinalLayer
  rw [he]
  rw [if_pos (show ((true : Bool) && !false) = true from rfl), if_pos hd]
  exact ⟨rfl, rfl⟩

theorem sourceNameNeMissingName (n : String) : sourceTag ++ n ≠ n ++ missingSuffix := by
  intro he
  have hlen := congrArg String.length he
  rw [String.length_append, String.length_append] at hlen
  have h1 : sourceTag.length = 18 := rfl
  have h2 : missingSuffix.length = 10 := rfl
  omega

theorem preNameNeSourceName (n : String) : aeBridgeTag ++ n ≠ sourceTag ++ n := by
  intro he
  have hlen := congrArg String.length he
  rw [String.length_append, String.length_append] at hlen
  have h1 : aeBridgeTag.length = 11 := rfl
  have h2 : sourceTag.length = 18 := rfl
  omega

theorem srcLayerPredCongr (q r : Project) (hi : q.items = r.items) (nm : String) (l : Layer) :
    srcLayerPred q nm l = srcLayerPred r nm l := by
  unfold srcLayerPred layerSourceIsFootage findItem
  rw [hi]

theorem getLayerCongr (q r : Project) (hl : q.layers = r.layers) (i : Nat) :
    getLayer q i = getLayer r i := by
  unfold getLayer
  rw [hl]

theorem eslConformState (cfg : SConfig) (q : Project) (fid : Nat) :
    (eslConform cfg q fid).layers = q.layers ∧ (eslConform cfg q fid).nextId = q.nextId := by
  unfold eslConform
  split
  · split
    · exact ⟨rfl, rfl⟩
    · exact ⟨rfl, rfl⟩
  · exact ⟨rfl, rfl⟩

theorem eslConformFind (cfg : SConfig) (q : Project) (fid : Nat) (fitem : PItem)
    (hf : findItem q fid = some fitem) :
    ∃ fi2, findItem (eslConform cfg q fid) fid = some fi2 ∧
      fi2.duration = fitem.duration ∧ fi2.kind = fitem.kind := by
  have hf2 : q.items.find? (fun it => it.id == fid) = some fitem := hf
  have hbeq : (fitem.id == fid) = true := by simpa using List.find?_some hf2
  simp only [eslConform, hf]
  by_cases hk : (fitem.kind == ItemKind.footage) = true
  · rw [if_pos hk]
    rw [findItemUpdate q fid (fun x => { x with conformFrameRate := cfg.frameRate })
      (fun x => rfl) fid]
    rw [hf]
    refine ⟨{ fitem with conformFrameRate := cfg.frameRate }, ?_, rfl, rfl⟩
    have hid : fitem.id = fid := by simpa using hbeq
    simp [hid]
  · rw [if_neg hk]
    exact ⟨fitem, hf, rfl, rfl⟩

theorem getLayerDedup (p2 : Project) (preId tid : Nat) (nm : String) :
    getLayer (eslDedup p2 preId tid nm) tid = getLayer p2 tid := by
  unfold eslDedup
  exact getLayerFilterKeep p2 _ tid (fun l hl => by simp [hl])

theorem layersOkDedup (p2 : Project) (preId tid : Nat) (nm : String) (h : layersOk p2) :
    layersOk (eslDedup p2 preId tid nm) := by
  unfold eslDedup
  exact layersOkFilter p2 _ h

theorem layersOkEslRename (p : Project) (tid : Nat) (nm : String) (h : layersOk p) :
    layersOk (eslRename p tid nm) :=
  layersOkUpdateLayer p tid _ (fun l => rfl) h

theorem layersOkEslConform (cfg : SConfig) (q : Project) (fid : Nat) (h : layersOk q) :
    layersOk (eslConform cfg q fid) := by
  unfold eslConform
  split
  · split
    · exact h
    · exact h
  · exact h

theorem layersOkEslTiming (cfg : SConfig) (q : Project) (tid : Nat) (a b : ℤ)
    (h : layersOk q) : layersOk (eslTiming cfg q tid a b) :=
  layersOkUpdateLayer q tid _ (fun l => rfl) h

theorem layersOkEslRemap (cfg : SConfig) (q : Project) (t : Layer) (fid : Nat) (a b : ℤ)
    (h : layersOk q) : layersOk (eslRemap cfg q t fid a b) := by
  unfold eslRemap
  split
  · split
    · exact layersOkUpdateLayer q t.id _ (fun l => rfl) h
    · exact h
  · exact h

theorem layersOkEslApply (cfg : SConfig) (p1 : Project) (t : Layer) (fid : Nat)
    (nm : String) (a b : ℤ) (h : layersOk p1) : layersOk (eslApply cfg p1 t fid nm a b) :=
  layersOkEslRemap _ _ _ _ _ _
    (layersOkEslTiming _ _ _ _ _ (layersOkEslConform _ _ _ (layersOkEslRename _ _ _ h)))

theorem eslRemapNextId (cfg : SConfig) (q : Project) (t : Layer) (fid : Nat) (a b : ℤ) :
    (eslRemap cfg q t fid a b).nextId = q.nextId := by
  unfold eslRemap
  split
  · split
    · rfl
    · rfl
  · rfl

theorem eslApplyNextId (cfg : SConfig) (p1 : Project) (t : Layer) (fid : Nat)
    (nm : String) (a b : ℤ) : (eslApply cfg p1 t fid nm a b).nextId = p1.nextId := by
  unfold eslApply
  rw [eslRemapNextId]
  exact (eslConformState cfg (eslRename p1 t.id nm) fid).2

theorem eslApplyGetLayer (cfg : SConfig) (p1 : Project) (t1 : Layer) (fid : Nat)
    (nm : String) (a b : ℤ) (fitem : PItem) (hfid : findItem p1 fid = some fitem)
    (ht : getLayer p1 t1.id = some t1) :
    getLayer (eslApply cfg p1 t1 fid nm a b) t1.id =
      some (eslFinalLayer cfg fitem.duration (fitem.kind == ItemKind.footage) t1 nm a b) := by
  have h1 : getLayer (eslRename p1 t1.id nm) t1.id = some { t1 with name := nm } := by
    unfold eslRename
    exact getLayerUpdateSelf p1 t1 _ (fun l => rfl) ht
  obtain ⟨fi2, hfi2, hdur, hkind⟩ :=
    eslConformFind cfg (eslRename p1 t1.id nm) fid fitem hfid
  have h2 : getLayer (eslConform cfg (eslRename p1 t1.id nm) fid) t1.id
      = some { t1 with name := nm } := by
    rw [getLayerCongr _ _ (eslConformState cfg (eslRename p1 t1.id nm) fid).1 t1.id]
    exact h1
  have h3 : getLayer (eslTiming cfg (eslConform cfg (eslRename p1 t1.id nm) fid) t1.id a b)
        t1.id
      = some { t1 with name := nm
                       startTime := layerStartTimeQ cfg a
                       inPoint := layerStartTimeQ cfg a
                       outPoint := layerStartTimeQ cfg a + layerDurationQ cfg a b } := by
    unfold eslTiming
    exact getLayerUpdateSelf (eslConform cfg (eslRename p1 t1.id nm) fid)
      { t1 with name := nm } _ (fun l => rfl) h2
  have hfid4 : findItem (eslTiming cfg (eslConform cfg (eslRename p1 t1.id nm) fid) t1.id a b)
      fid = some fi2 := hfi2
  have hcan : eslCanSet (eslTiming cfg (eslConform cfg (eslRename p1 t1.id nm) fid) t1.id a b)
      fid = (fitem.kind == ItemKind.footage) := by
    unfold eslCanSet
    rw [hfid4]
    show (fi2.kind == ItemKind.footage) = (fitem.kind == ItemKind.footage)
    rw [hkind]
  have hact : eslActualDur
      (eslTiming cfg (eslConform cfg (eslRename p1 t1.id nm) fid) t1.id a b) fid
      = fitem.duration := by
    unfold eslActualDur
    rw [hfid4]
    show fi2.duration = fitem.duration
    exact hdur
  unfold eslApply eslRemap
  rw [hcan, hact]
  unfold eslFinalLayer
  split_ifs with hc hd
  · exact getLayerUpdateSelf (eslTiming cfg (eslConform cfg (eslRename p1 t1.id nm) fid) t1.id a b)
      { t1 with name := nm
                startTime := layerStartTimeQ cfg a
                inPoint := layerStartTimeQ cfg a
                outPoint := layerStartTimeQ cfg a + layerDurationQ cfg a b } _ (fun l => rfl) h3
  · exact h3
  · exact h3

theorem eslGetLayer (cfg : SConfig) (p : Project) (preId fid : Nat) (nm : String) (a b : ℤ)
    (hnd : layersOk p) (fitem : PItem) (hfid : findItem p fid = some fitem) :
    ∃ t1 : Layer,
      (ensureSourceLayer cfg p preId (some fid) nm a b).2 = some t1.id ∧
      t1.sourceId = fid ∧
      (∀ t0, (compLayers p preId).find? (srcLayerPred p nm) = some t0 →
        t1.id = t0.id ∧ t1.timeRemapEnabled = t0.timeRemapEnabled ∧
          t1.remapKeys = t0.remapKeys) ∧
      ((compLayers p preId).find? (srcLayerPred p nm) = none →
        t1.timeRemapEnabled = false) ∧
      getLayer (ensureSourceLayer cfg p preId (some fid) nm a b).1 t1.id =
        some (eslFinalLayer cfg fitem.duration (fitem.kind == ItemKind.footage) t1 nm a b) := by
  unfold ensureSourceLayer
  cases hfd : (compLayers p preId).find? (srcLayerPred p nm) with
  | some t0 =>
    have ht0mem : t0 ∈ p.layers :=
      (List.mem_filter.1 (List.mem_of_find?_eq_some hfd)).1
    have ht0 : getLayer p t0.id = some t0 := getLayerOfMem p t0 hnd.1 ht0mem
    by_cases hsrc : (t0.sourceId == fid) = true
    · have hacq : eslAcquire p preId (some fid) nm = some (p, t0) := by
        unfold eslAcquire
        rw [hfd]
        simp [hsrc]
      rw [hacq]
      refine ⟨t0, rfl, by simpa using hsrc, ?_, ?_, ?_⟩
      · intro t0' h0'
        cases h0'
        exact ⟨rfl, rfl, rfl⟩
      · intro hn
        cases hn
      · show getLayer (eslDedup (eslApply cfg p t0 fid nm a b) preId t0.id nm) t0.id = _
        rw [getLayerDedup]
        exact eslApplyGetLayer cfg p t0 fid nm a b fitem hfid ht0
    · have hacq : eslAcquire p preId (some fid) nm
          = some (updateLayer p t0.id (fun l => { l with sourceId := fid }),
              { t0 with sourceId := fid }) := by
        unfold eslAcquire
        rw [hfd]
        simp [hsrc]
      rw [hacq]
      refine ⟨{ t0 with sourceId := fid }, rfl, rfl, ?_, ?_, ?_⟩
      · intro t0' h0'
        cases h0'
        exact ⟨rfl, rfl, rfl⟩
      · intro hn
        cases hn
      · show getLayer (eslDedup
          (eslApply cfg (updateLayer p t0.id (fun l => { l with sourceId := fid }))
            { t0 with sourceId := fid } fid nm a b) preId t0.id nm) t0.id = _
        rw [getLayerDedup]
        refine eslApplyGetLayer cfg _ _ fid nm a b fitem hfid ?_
        exact getLayerUpdateSelf p t0 _ (fun l => rfl) ht0
  | none =>
    have hacq : eslAcquire p preId (some fid) nm
        = some ({ p with nextId := p.nextId + 1
                         layers := { id := p.nextId, compId := preId
                                     name := ((findItem p fid).map PItem.name).getD ""
                                     sourceId := fid, startTime := 0, inPoint := 0
                                     outPoint := ((findItem p fid).map PItem.duration).getD 0
                                     timeRemapEnabled := false
                                     remapKeys := [] } :: p.layers },
            { id := p.nextId, compId := preId
              name := ((findItem p fid).map PItem.name).getD ""
              sourceId := fid, startTime := 0, inPoint := 0
              outPoint := ((findItem p fid).map PItem.duration).getD 0
              timeRemapEnabled := false, remapKeys := [] }) := by
      unfold eslAcquire
      rw [hfd]
    rw [hacq]
    refine ⟨_, rfl, rfl, ?_, ?_, ?_⟩
    · intro t0' h0'
      cases h0'
    · intro hn
      rfl
    · show getLayer (eslDedup (eslApply cfg _ _ fid nm a b) preId p.nextId nm) p.nextId = _
      rw [getLayerDedup]
      refine eslApplyGetLayer cfg _ _ fid nm a b fitem hfid ?_
      unfold getLayer
      exact List.find?_cons_of_pos _ (by simp)

theorem eslStateOk (cfg : SConfig) (p : Project) (preId fid : Nat) (nm : String) (a b : ℤ)
    (h : layersOk p) :
    layersOk (ensureSourceLayer cfg p preId (some fid) nm a b).1 ∧
    (∀ tid, (ensureSourceLayer cfg p preId (some fid) nm a b).2 = some tid →
      tid < (ensureSourceLayer cfg p preId (some fid) nm a b).1.nextId) := by
  unfold ensureSourceLayer
  cases hacq : eslAcquire p preId (some fid) nm with
  | none =>
    refine ⟨h, ?_⟩
    intro tid htid
    cases htid
  | some pr =>
    obtain ⟨p1, t1⟩ := pr
    have hp1 : layersOk p1 ∧ t1.id < p1.nextId := by
      cases hfd : (compLayers p preId).find? (srcLayerPred p nm) with
      | some t0 =>
        have ht0mem : t0 ∈ p.layers :=
          (List.mem_filter.1 (List.mem_of_find?_eq_some hfd)).1
        by_cases hsrc : (t0.sourceId == fid) = true
        · have hacq2 : eslAcquire p preId (some fid) nm = some (p, t0) := by
            unfold eslAcquire
            rw [hfd]
            simp [hsrc]
          rw [hacq] at hacq2
          have hpair := Option.some.inj hacq2
          injection hpair with h1 h2
          subst h1
          subst h2
          exact ⟨h, h.2 _ ht0mem⟩
        · have hacq2 : eslAcquire p preId (some fid) nm
              = some (updateLayer p t0.id (fun l => { l with sourceId := fid }),
                  { t0 with sourceId := fid }) := by
            unfold eslAcquire
            rw [hfd]
            simp [hsrc]
          rw [hacq] at hacq2
          have hpair := Option.some.inj hacq2
          injection hpair with h1 h2
          subst h1
          subst h2
          refine ⟨layersOkUpdateLayer p t0.id _ (fun l => rfl) h, ?_⟩
          show ({ t0 with sourceId := fid } : Layer).id < p.nextId
          exact h.2 t0 ht0mem
      | none =>
        have hacq2 : eslAcquire p preId (some fid) nm
            = some ({ p with nextId := p.nextId + 1
                             layers := { id := p.nextId, compId := preId
                                         name := ((findItem p fid).map PItem.name).getD ""
                                         sourceId := fid, startTime := 0, inPoint := 0
                                         outPoint := ((findItem p fid).map PItem.duration).getD 0
                                         timeRemapEnabled := false
                                         remapKeys := [] } :: p.layers },
                { id := p.nextId, compId := preId
                  name := ((findItem p fid).map PItem.name).getD ""
                  sourceId := fid, startTime := 0, inPoint := 0
                  outPoint := ((findItem p fid).map PItem.duration).getD 0
                  timeRemapEnabled := false, remapKeys := [] }) := by
          unfold eslAcquire
          rw [hfd]
        rw [hacq] at hacq2
        have hpair := Option.some.inj hacq2
        injection hpair with h1 h2
        subst h1
        subst h2
        constructor
        · exact layersOkPrepend p _ rfl h
        · exact Nat.lt_succ_self _
    constructor
    · exact layersOkDedup _ _ _ _ (layersOkEslApply _ _ _ _ _ _ _ hp1.1)
    · intro tid htid
      have he : t1.id = tid := Option.some.inj htid
      rw [← he]
      show t1.id < (eslDedup (eslApply cfg p1 t1 fid nm a b) preId t1.id nm).nextId
      have hn1 : (eslDedup (eslApply cfg p1 t1 fid nm a b) preId t1.id nm).nextId
          = (eslApply cfg p1 t1 fid nm a b).nextId := rfl
      rw [hn1, eslApplyNextId]
      exact hp1.2

theorem getLayerNest (cfg : SConfig) (q : Project) (mainId preId : Nat) (preName : String)
    (i : Nat) (hlt : i < q.nextId) :
    getLayer (nestIntoMain cfg q mainId preId preName) i = getLayer q i := by
  unfold nestIntoMain
  split
  · rfl
  · exact getLayerPrependNe q _ _ i (Nat.ne_of_gt hlt)

theorem layersOkPrep (cfg : SConfig) (h : Host) (p p2 : Project) (it : ShotItem)
    (fo : Option Nat)
    (himp : importOrUpdateSequence h (ensureComp cfg p (aeBridgeTag ++ it.name)).1
      (shotFileArg it) it.name = Except.ok (p2, fo)) (hok : layersOk p) :
    layersOk p2 := by
  have h1 : layersOk (ensureComp cfg p (aeBridgeTag ++ it.name)).1 :=
    layersOkOfEq p _ (ensureCompLayers cfg p _) (ensureCompNextId cfg p _) hok
  obtain ⟨hl, hn⟩ := resolverOkState h _ _ _ p2 fo himp
  exact layersOkOfEq _ p2 hl hn h1

theorem layersOkPrepResolved (cfg : SConfig) (p2 : Project) (preId fid : Nat)
    (it : ShotItem) (hok : layersOk p2) : layersOk (prepResolved cfg p2 preId fid it) := by
  unfold prepResolved removePlaceholders
  exact layersOkFilter _ _ hok

theorem prepResolvedFind (cfg : SConfig) (p2 : Project) (preId fid : Nat) (it : ShotItem)
    (hs : (findItem p2 fid).isSome = true) :
    ∃ fitem, findItem (prepResolved cfg p2 preId fid it) fid = some fitem := by
  have h1 : (findItem (prepResolved cfg p2 preId fid it) fid).isSome = true :=
    updateItemFound p2 fid _ (fun x => rfl) hs
  exact Option.isSome_iff_exists.1 h1

/-! ### Claim C4 -/

/-- C4: for every ShotItem with `first ≤ last` whose footage resolves, the
reconcile step sets the source layer timing to
`layerStartTime = (first - globalFirst) / frameRate`, `inPoint = layerStartTime`
and `outPoint = layerStartTime + (last - first + 1) / frameRate`, regardless of
the prior values of those fields on any prior state; hence
`outPoint - startTime` equals `(last - first + 1) / frameRate`, in particular
within 0.01s. -/
theorem c4_source_layer_timing (cfg : SConfig) (h : Host) (mainId : Nat) (p : Project)
    (it : ShotItem) (hok : layersOk p) (o : ItemOutcome)
    (hrun : processItem cfg h mainId p it = Except.ok o)
    (fid : Nat) (hres : o.footageId = some fid)
    (hfr : 0 < cfg.frameRate) (hfl : it.first ≤ it.last) :
    ∃ l : Layer, o.srcLayerId = some l.id ∧ getLayer o.proj l.id = some l ∧
      l.startTime = layerStartTimeQ cfg it.first ∧
      l.inPoint = layerStartTimeQ cfg it.first ∧
      l.outPoint = layerStartTimeQ cfg it.first + layerDurationQ cfg it.first it.last ∧
      l.outPoint - l.startTime = layerDurationQ cfg it.first it.last ∧
      |l.outPoint - l.startTime - layerDurationQ cfg it.first it.last| ≤ 1/100 := by
  unfold processItem at hrun
  cases himp : importOrUpdateSequence h (ensureComp cfg p (aeBridgeTag ++ it.name)).1
      (shotFileArg it) it.name with
  | error e =>
    rw [himp] at hrun
    cases hrun
  | ok pr =>
    obtain ⟨p2, fo⟩ := pr
    rw [himp] at hrun
    cases fo with
    | none =>
      cases hrun
      cases hres
    | some fid2 =>
      cases hrun
      have hfe : fid2 = fid := Option.some.inj hres
      subst hfe
      simp only [processResolvedOutcome]
      have hok4 : layersOk (prepResolved cfg p2
          (ensureComp cfg p (aeBridgeTag ++ it.name)).2 fid2 it) :=
        layersOkPrepResolved _ _ _ _ _ (layersOkPrep cfg h p p2 it _ himp hok)
      obtain ⟨fitem, hfid⟩ := prepResolvedFind cfg p2
        (ensureComp cfg p (aeBridgeTag ++ it.name)).2 fid2 it
        (resolverFoundItem h _ _ _ p2 fid2 himp)
      obtain ⟨t1, hsnd, hsrcid, hfound, hnone, hget⟩ :=
        eslGetLayer cfg (prepResolved cfg p2 (ensureComp cfg p (aeBridgeTag ++ it.name)).2 fid2 it)
          (ensureComp cfg p (aeBridgeTag ++ it.name)).2 fid2 (sourceTag ++ it.name)
          it.first it.last hok4 fitem hfid
      obtain ⟨hokE, hbound⟩ :=
        eslStateOk cfg (prepResolved cfg p2 (ensureComp cfg p (aeBridgeTag ++ it.name)).2 fid2 it)
          (ensureComp cfg p (aeBridgeTag ++ it.name)).2 fid2 (sourceTag ++ it.name)
          it.first it.last hok4
      refine ⟨eslFinalLayer cfg fitem.duration (fitem.kind == ItemKind.footage) t1
        (sourceTag ++ it.name) it.first it.last, ?_, ?_, ?_, ?_, ?_, ?_, ?_⟩
      · rw [eslFinalId]
        exact hsnd
      · rw [eslFinalId]
        rw [getLayerNest cfg _ mainId _ _ t1.id (hbound t1.id hsnd)]
        exact hget
      · exact eslFinalStartTime cfg _ _ _ _ _ _
      · exact eslFinalInPoint cfg _ _ _ _ _ _
      · exact eslFinalOutPoint cfg _ _ _ _ _ _
      · rw [eslFinalOutPoint, eslFinalStartTime]
        exact add_sub_cancel_left _ _
      · rw [eslFinalOutPoint, eslFinalStartTime, add_sub_cancel_left, sub_self, abs_zero]
        norm_num

/-! ### Claim C4 witness -/

/-- C4 witness: the concrete resolved shot `wItem` on the empty project gets a
source layer spanning frames 1..2 at 24 fps. -/
theorem c4_source_layer_timing_w :
    ∃ l : Layer, wOut.srcLayerId = some l.id ∧ getLayer wOut.proj l.id = some l ∧
      l.startTime = layerStartTimeQ wCfg wItem.first ∧
      l.inPoint = layerStartTimeQ wCfg wItem.first ∧
      l.outPoint = layerStartTimeQ wCfg wItem.first
        + layerDurationQ wCfg wItem.first wItem.last ∧
      l.outPoint - l.startTime = layerDurationQ wCfg wItem.first wItem.last ∧
      |l.outPoint - l.startTime - layerDurationQ wCfg wItem.first wItem.last| ≤ 1/100 :=
  c4_source_layer_timing wCfg wHost 50 emptyProject wItem
    (by unfold layersOk; exact ⟨by decide, by decide⟩) wOut rfl 1 rfl
    (by decide) (by decide)

/-! ### Claim C6 -/

/-- C6 counterexample: on a rerun where the previous run already enabled time
remapping, the stale keyframes [(5, 7)] survive even though the media duration
(100s) differs from the layer duration (2s) by far more than 0.01s, and they
are not the two keyframes the spec promises. -/
theorem c6_remap_already_enabled_skipped_cex :
    |c6foot.duration - layerDurationQ c6cfg 1 48| > 1/100 ∧
    (getLayer (ensureSourceLayer c6cfg c6p 0 (some 1) "[AEBridge]_Source_shot" 1 48).1 2).map
      Layer.timeRemapEnabled = some true ∧
    (getLayer (ensureSourceLayer c6cfg c6p 0 (some 1) "[AEBridge]_Source_shot" 1 48).1 2).map
      Layer.remapKeys = some [((5 : ℚ), (7 : ℚ))] ∧
    [((5 : ℚ), (7 : ℚ))] ≠ [(layerStartTimeQ c6cfg 1, (0 : ℚ)),
      (layerStartTimeQ c6cfg 1 + layerDurationQ c6cfg 1 48, c6foot.duration)] :=
  ⟨by decide, by decide, by decide, by decide⟩

/-- C6 amended: the remap keyframes are rebuilt only when time remapping is
not already enabled on the found source layer.  When a previous run left it
enabled, the old keyframes are kept untouched; the promised two-keyframe
rebuild happens exactly on the disabled-to-enabled transition (footage source,
duration mismatch above 0.01s). -/
theorem c6_remap_rebuild_only_when_disabled (cfg : SConfig) (p : Project) (preId fid : Nat)
    (nm : String) (a b : ℤ) (hok : layersOk p) (fitem : PItem)
    (hfid : findItem p fid = some fitem) (t0 : Layer)
    (hfound : (compLayers p preId).find? (srcLayerPred p nm) = some t0) :
    (t0.timeRemapEnabled = true →
      ∃ l, getLayer (ensureSourceLayer cfg p preId (some fid) nm a b).1 t0.id = some l ∧
        l.timeRemapEnabled = true ∧ l.remapKeys = t0.remapKeys) ∧
    (t0.timeRemapEnabled = false → fitem.kind = ItemKind.footage →
      |fitem.duration - layerDurationQ cfg a b| > 1/100 →
      ∃ l, getLayer (ensureSourceLayer cfg p preId (some fid) nm a b).1 t0.id = some l ∧
        l.timeRemapEnabled = true ∧
        l.remapKeys = [(layerStartTimeQ cfg a, (0 : ℚ)),
          (layerStartTimeQ cfg a + layerDurationQ cfg a b, fitem.duration)]) := by
  obtain ⟨t1, hsnd, hsrcid, hfRel, hnone, hget⟩ :=
    eslGetLayer cfg p preId fid nm a b hok fitem hfid
  obtain ⟨hid, hen, hkeys⟩ := hfRel t0 hfound
  constructor
  · intro he
    have he1 : t1.timeRemapEnabled = true := hen.trans he
    refine ⟨eslFinalLayer cfg fitem.duration (fitem.kind == ItemKind.footage) t1 nm a b,
      ?_, ?_, ?_⟩
    · rw [← hid]
      exact hget
    · exact (eslFinalRemapOfEnabled cfg fitem.duration _ t1 nm a b he1).1
    · rw [(eslFinalRemapOfEnabled cfg fitem.duration _ t1 nm a b he1).2, hkeys]
  · intro he hkind hd
    have he1 : t1.timeRemapEnabled = false := hen.trans he
    have hcan : (fitem.kind == ItemKind.footage) = true := by rw [hkind]; rfl
    rw [hcan] at hget
    obtain ⟨hz1, hz2⟩ := eslFinalRemapOfRebuild cfg fitem.duration t1 nm a b he1 hd
    refine ⟨eslFinalLayer cfg fitem.duration true t1 nm a b, ?_, hz1, hz2⟩
    rw [← hid]
    exact hget

/-- C6 witness: same project as the counterexample but with remapping not yet
enabled; the rebuild does happen and installs the two documented keyframes. -/
theorem c6_remap_rebuild_only_when_disabled_w :
    ∃ l, getLayer (ensureSourceLayer c6cfg c6wp 0 (some 1) "[AEBridge]_Source_shot" 1 48).1
        c6wlayer.id = some l ∧
      l.timeRemapEnabled = true ∧
      l.remapKeys = [(layerStartTimeQ c6cfg 1, (0 : ℚ)),
        (layerStartTimeQ c6cfg 1 + layerDurationQ c6cfg 1 48, c6foot.duration)] :=
  (c6_remap_rebuild_only_when_disabled c6cfg c6wp 0 1 "[AEBridge]_Source_shot" 1 48
    (by unfold layersOk; exact ⟨by decide, by decide⟩) c6foot rfl c6wlayer (by decide)).2
    rfl rfl (by decide)

/-! ### Claim C8 -/

theorem filterConsLenOne {α : Type} (x : α) (l : List α) (pr : α → Bool)
    (hx : pr x = true) (hl : ∀ y ∈ l, ¬ pr y = true) :
    (List.filter pr (x :: l)).length = 1 := by
  rw [List.filter_cons, if_pos hx, List.filter_eq_nil_iff.2 hl]
  rfl

theorem filterConsLenZero {α : Type} (x : α) (l : List α) (pr : α → Bool)
    (hx : pr x = false) (hl : ∀ y ∈ l, ¬ pr y = true) :
    (List.filter pr (x :: l)).length = 0 := by
  rw [List.filter_cons, if_neg (by simp [hx]), List.filter_eq_nil_iff.2 hl]
  rfl

/-- With resolved footage, `ensureSourceLayer` always acquires a target layer
and its result is the dedup of the applied state. -/
theorem eslShape (cfg : SConfig) (p : Project) (preId fid : Nat) (nm : String) (a b : ℤ) :
    ∃ p1 t1, eslAcquire p preId (some fid) nm = some (p1, t1) ∧
      (ensureSourceLayer cfg p preId (some fid) nm a b).1
        = eslDedup (eslApply cfg p1 t1 fid nm a b) preId t1.id nm ∧
      (ensureSourceLayer cfg p preId (some fid) nm a b).2 = some t1.id := by
  cases hacq : eslAcquire p preId (some fid) nm with
  | none =>
    exfalso
    unfold eslAcquire at hacq
    cases hfd : (compLayers p preId).find? (srcLayerPred p nm) with
    | some t0 =>
      rw [hfd] at hacq
      cases hsrc : t0.sourceId == fid with
      | true => simp [hsrc] at hacq
      | false => simp [hsrc] at hacq
    | none =>
      rw [hfd] at hacq
      simp at hacq
  | some pr =>
    obtain ⟨p1, t1⟩ := pr
    refine ⟨p1, t1, rfl, ?_, ?_⟩
    · unfold ensureSourceLayer
      rw [hacq]
    · unfold ensureSourceLayer
      rw [hacq]

/-- Every layer surviving the dedup filter that still matches the reserved
source-layer predicate is the target layer. -/
theorem dedupMemId (A : Project) (preId tid : Nat) (nm : String) (x : Layer)
    (hx : x ∈ (eslDedup A preId tid nm).layers)
    (hp : (x.compId == preId && srcLayerPred A nm x) = true) : x.id = tid := by
  unfold eslDedup at hx
  have hq := (List.mem_filter.1 hx).2
  simp only [hp, Bool.not_true, Bool.or_false] at hq
  simpa using hq

theorem nestDedupCountLe (cfg : SConfig) (A : Project) (preId tid mainId : Nat)
    (nm preName : String) (hne : preName ≠ nm)
    (hn : ((eslDedup A preId tid nm).layers.map Layer.id).Nodup) :
    countLayers (nestIntoMain cfg (eslDedup A preId tid nm) mainId preId preName)
      (fun l => l.compId == preId && srcLayerPred
        (nestIntoMain cfg (eslDedup A preId tid nm) mainId preId preName) nm l) ≤ 1 := by
  unfold nestIntoMain
  split
  · unfold countLayers
    refine filterLenLeOne Layer.id _ hn _ tid ?_
    intro x hx hpx
    have hpx2 : (x.compId == preId && srcLayerPred (eslDedup A preId tid nm) nm x)
        = true := hpx
    rw [srcLayerPredCongr (eslDedup A preId tid nm) A rfl nm x] at hpx2
    exact dedupMemId A preId tid nm x hx hpx2
  · unfold countLayers
    show (List.filter _ (_ :: (eslDedup A preId tid nm).layers)).length ≤ 1
    rw [List.filter_cons]
    split
    · next hc =>
        exfalso
        simp [srcLayerPred, beq_eq_false_iff_ne.2 hne] at hc
    · refine filterLenLeOne Layer.id _ hn _ tid ?_
      intro x hx hpx
      have hpx2 : (x.compId == preId && srcLayerPred (eslDedup A preId tid nm) nm x)
          = true := by
        rw [← srcLayerPredCongr _ (eslDedup A preId tid nm) rfl nm x]
        exact hpx
      exact dedupMemId A preId tid nm x hx hpx2

/-- After binding the source layer and nesting, at most one layer of the
child composition matches the reserved source-layer predicate. -/
theorem eslNestCountLe (cfg : SConfig) (p4 : Project) (preId fid mainId : Nat)
    (nm preName : String) (a b : ℤ) (hok4 : layersOk p4) (hne : preName ≠ nm) :
    countLayers (nestIntoMain cfg (ensureSourceLayer cfg p4 preId (some fid) nm a b).1
        mainId preId preName)
      (fun l => l.compId == preId && srcLayerPred
        (nestIntoMain cfg (ensureSourceLayer cfg p4 preId (some fid) nm a b).1
          mainId preId preName) nm l) ≤ 1 := by
  obtain ⟨p1, t1, hacq, hfst, hsnd⟩ := eslShape cfg p4 preId fid nm a b
  have hokE : layersOk (ensureSourceLayer cfg p4 preId (some fid) nm a b).1 :=
    (eslStateOk cfg p4 preId fid nm a b hok4).1
  rw [hfst] at hokE
  rw [hfst]
  exact nestDedupCountLe cfg (eslApply cfg p1 t1 fid nm a b) preId t1.id mainId nm preName
    hne hokE.1

/-- Layer counts after the missing-footage branch: exactly one placeholder,
no layer carrying the reserved source-layer name, and in particular no
footage-backed source layer. -/
theorem missingCounts (cfg : SConfig) (p2 : Project) (preId : Nat) (it : ShotItem) :
    countLayers (processMissingOutcome cfg p2 preId it).proj
      (fun l => l.compId == preId && l.name == (it.name ++ missingSuffix)) = 1 ∧
    countLayers (processMissingOutcome cfg p2 preId it).proj
      (fun l => l.compId == preId && l.name == (sourceTag ++ it.name)) = 0 ∧
    countLayers (processMissingOutcome cfg p2 preId it).proj
      (fun l => l.compId == preId && srcLayerPred (processMissingOutcome cfg p2 preId it).proj
        (sourceTag ++ it.name) l) ≤ 1 := by
  have h1 : countLayers (processMissingOutcome cfg p2 preId it).proj
      (fun l => l.compId == preId && l.name == (it.name ++ missingSuffix)) = 1 := by
    refine filterConsLenOne _ _ _ ?_ ?_
    · simp [missingSolidLayer]
    · intro y hy hc
      have hq := (List.mem_filter.1 (List.mem_of_mem_filter hy)).2
      simp at hq hc
      tauto
  have h2 : countLayers (processMissingOutcome cfg p2 preId it).proj
      (fun l => l.compId == preId && l.name == (sourceTag ++ it.name)) = 0 := by
    refine filterConsLenZero _ _ _ ?_ ?_
    · simp [missingSolidLayer, beq_eq_false_iff_ne.2 (Ne.symm (sourceNameNeMissingName it.name))]
    · intro y hy hc
      have hq := (List.mem_filter.1 hy).2
      simp at hq hc
      tauto
  refine ⟨h1, h2, ?_⟩
  have h2e : ((processMissingOutcome cfg p2 preId it).proj.layers.filter
      (fun l => l.compId == preId && l.name == (sourceTag ++ it.name))).length = 0 := h2
  have hmono := filterLenMono (processMissingOutcome cfg p2 preId it).proj.layers
    (fun l => l.compId == preId && srcLayerPred (processMissingOutcome cfg p2 preId it).proj
      (sourceTag ++ it.name) l)
    (fun l => l.compId == preId && l.name == (sourceTag ++ it.name)) ?_
  · refine le_trans hmono ?_
    rw [h2e]
    exact Nat.zero_le 1
  · intro x hx
    simp [srcLayerPred] at hx ⊢
    exact ⟨hx.1, hx.2.1⟩

/-- C8: after one per-shot reconcile step the child composition holds at most
one footage-backed layer carrying the reserved source-layer name, and when the
footage is unresolved there is exactly one placeholder layer named
name followed by the missing suffix and no layer carrying the source name. -/
theorem c8_reconcile_layer_invariant (cfg : SConfig) (h : Host) (mainId : Nat) (p : Project)
    (it : ShotItem) (hok : layersOk p) (o : ItemOutcome)
    (hrun : processItem cfg h mainId p it = Except.ok o) :
    countLayers o.proj
      (fun l => l.compId == o.preId && srcLayerPred o.proj (sourceTag ++ it.name) l) ≤ 1 ∧
    (o.footageId = none →
      countLayers o.proj
        (fun l => l.compId == o.preId && l.name == (it.name ++ missingSuffix)) = 1 ∧
      countLayers o.proj
        (fun l => l.compId == o.preId && l.name == (sourceTag ++ it.name)) = 0) := by
  unfold processItem at hrun
  cases himp : importOrUpdateSequence h (ensureComp cfg p (aeBridgeTag ++ it.name)).1
      (shotFileArg it) it.name with
  | error e =>
    rw [himp] at hrun
    cases hrun
  | ok pr =>
    obtain ⟨p2, fo⟩ := pr
    rw [himp] at hrun
    cases fo with
    | none =>
      cases hrun
      obtain ⟨h1, h2, h3⟩ := missingCounts cfg p2 (ensureComp cfg p (aeBridgeTag ++ it.name)).2 it
      exact ⟨h3, fun _ => ⟨h1, h2⟩⟩
    | some fid =>
      cases hrun
      refine ⟨?_, ?_⟩
      · have hok4 : layersOk (prepResolved cfg p2
            (ensureComp cfg p (aeBridgeTag ++ it.name)).2 fid it) :=
          layersOkPrepResolved _ _ _ _ _ (layersOkPrep cfg h p p2 it _ himp hok)
        exact eslNestCountLe cfg _ (ensureComp cfg p (aeBridgeTag ++ it.name)).2 fid mainId
          (sourceTag ++ it.name) (aeBridgeTag ++ it.name) it.first it.last hok4
          (preNameNeSourceName it.name)
      · intro hcontra
        exact Option.noConfusion hcontra

/-- C8 witness: the concrete unresolved shot `m8item` yields exactly one
placeholder and no source layer. -/
theorem c8_reconcile_layer_invariant_w :
    countLayers m8out.proj
      (fun l => l.compId == m8out.preId
        && srcLayerPred m8out.proj (sourceTag ++ m8item.name) l) ≤ 1 ∧
    (m8out.footageId = none →
      countLayers m8out.proj
        (fun l => l.compId == m8out.preId && l.name == (m8item.name ++ missingSuffix)) = 1 ∧
      countLayers m8out.proj
        (fun l => l.compId == m8out.preId && l.name == (sourceTag ++ m8item.name)) = 0) :=
  c8_reconcile_layer_invariant wCfg wHost 50 emptyProject m8item
    (by unfold layersOk; exact ⟨by decide, by decide⟩) m8out rfl

end AEBridge
